import Mathlib

/-!
Verification of the flynn host container backend
(`src/host/libvirt_lxc_backend.go`) and the MongoDB replication process
supervisor (`src/appliance/mongodb/process.go`) against their
natural-language specification.

The Go code is shallowly embedded: pure Lean functions mirror the source
functions, external effects (the mongod daemon, libvirt, the filesystem,
RPC calls) are decided by explicit oracle records, goroutine spawns are
recorded as effect values, and real-time waits are counted in ticks of the
relevant polling interval.
-/

namespace Flynn

/-! ## MongoDB replication process supervisor (`appliance/mongodb/process.go`) -/

/-- Role of a sirenia database process (`state.Role`). -/
inductive PRole
  | roleNone
  | rolePrimary
  | roleSync
  | roleAsync
deriving DecidableEq, Repr

/-- A discoverd instance identifying a peer: its address and the stable
`MONGODB_ID` entry of its metadata map. -/
structure PInstance where
  addr : String
  mongodbId : String
deriving DecidableEq, Repr

/-- A sirenia replication config (`state.Config`): role plus optional
upstream and downstream peers. -/
structure PConfig where
  role : PRole
  upstream : Option PInstance
  downstream : Option PInstance
deriving DecidableEq, Repr

/-- Modelled from the spec: `state.Config.Equal` is not under `src/`; the
spec treats two configs as equal when they denote the same role and peers,
so equality is structural. -/
def PConfig.equal (a b : PConfig) : Bool :=
  a == b

/-- Modelled from the spec: `state.Config.IsNewDownstream` is not under
`src/`; per the spec a running process restarts nothing when "only the
downstream changed", i.e. same role, same upstream, and a new non-nil
downstream different from the current one. -/
def PConfig.isNewDownstream (c other : PConfig) : Bool :=
  c.role == other.role && c.upstream == other.upstream &&
    other.downstream.isSome && c.downstream != other.downstream

/-- `MONGODB_ID` of an optional peer (`cfg.Upstream.Meta["MONGODB_ID"]`);
a missing peer yields the empty id. -/
def peerId (o : Option PInstance) : String :=
  (o.map PInstance.mongodbId).getD ""

/-- The mutable state of a `Process`: the atomically published running
flag, the stored config and whether it has been applied, the synced
downstream, and whether a catch-up wait goroutine is outstanding. -/
structure ProcState where
  running : Bool
  config : Option PConfig
  configApplied : Bool
  syncedDownstream : Option PInstance
  syncWaitActive : Bool
deriving DecidableEq, Repr

/-- The state of a freshly constructed `Process` (`NewProcess`). -/
def ProcState.initial : ProcState :=
  { running := false, config := none, configApplied := false
    syncedDownstream := none, syncWaitActive := false }

/-- External effects a process operation performs, in order: cancelling an
outstanding catch-up wait, writing the config file, daemon start/stop,
replica-set initialisation, waiting on the upstream, and spawning a
catch-up wait goroutine (`waitForSync`). -/
inductive PEffect
  | cancelSyncWait
  | writeConfig
  | startDaemon
  | stopDaemon
  | initPrimary
  | waitUpstream
  | spawnSyncWait (downstream : Option PInstance) (enableWrites : Bool)
deriving DecidableEq, Repr

/-- Outcome of a process operation: success, a Go error, or a Go panic. -/
inductive POut
  | ok
  | err (msg : String)
  | panicked (msg : String)
deriving DecidableEq, Repr

/-- Status of an upstream as reported by its sirenia HTTP status endpoint:
`status.Database.Running`, `status.Database.XLog`, `status.Database.UserExists`. -/
structure UpStatus where
  running : Bool
  xlog : String
  userExists : Bool
deriving DecidableEq, Repr

/-- Modelled from the spec: the mongodb xlog package is not under `src/`;
the spec glosses the code's readiness test `status.Database.XLog != ""` as
"logPosition != zero", so the zero position serialises to the empty string. -/
def xlogZeroStr : String := ""

/-- `checkInterval` from the source, in milliseconds. -/
def checkIntervalMs : Nat := 1000

/-- `upstreamTimeout` from the source, in milliseconds. -/
def upstreamTimeoutMs : Nat := 10000

/-- `DefaultReplTimeout` from the source, in milliseconds. -/
def defaultReplTimeoutMs : Nat := 60000

/-- `DefaultOpTimeout` from the source, in milliseconds. -/
def defaultOpTimeoutMs : Nat := 300000

/-- Oracle for the external world a process operation interacts with:
whether writing the config file succeeds, whether the daemon spawns and
accepts a connection, whether stopping times out, whether replica-set
initialisation and the local connection succeed, and the per-poll replies
of the upstream status endpoint (`none` models a client error). -/
structure PWorld where
  writeConfigOK : Bool
  startSpawnOK : Bool
  startConnectOK : Bool
  stopTimeout : Bool
  initPrimaryOK : Bool
  connectLocalOK : Bool
  upstreamResps : List (Option UpStatus)
deriving DecidableEq, Repr

/-- The readiness test of `waitForUpstream`:
`status.Database.Running && status.Database.XLog != "" && status.Database.UserExists`. -/
def upstreamReady (s : UpStatus) : Bool :=
  s.running && s.xlog != xlogZeroStr && s.userExists

/-- The polling loop of `waitForUpstream`: one status request per tick of
`checkInterval`; when the `upstreamTimeout` timer fires with no ready
response observed the loop fails with "upstream is offline". The fuel is
the number of remaining ticks before the timer fires. -/
def waitForUpstreamLoop : List (Option UpStatus) → Nat → Except String Unit
  | resps, 0 =>
    if ((resps.headD none).map upstreamReady).getD false then .ok ()
    else .error "upstream is offline"
  | resps, fuel + 1 =>
    if ((resps.headD none).map upstreamReady).getD false then .ok ()
    else waitForUpstreamLoop resps.tail fuel

/-- `Process.waitForUpstream`: polls the given status replies every
`checkInterval` until the `upstreamTimeout` timer fires. -/
def waitForUpstream (resps : List (Option UpStatus)) : Except String Unit :=
  waitForUpstreamLoop resps (upstreamTimeoutMs / checkIntervalMs)

/-- `Process.stop`: cancel any catch-up wait, send stop to the daemon and
wait for it; on timeout fail with the running flag left set, otherwise
clear the running flag. -/
def pstop (p : ProcState) (w : PWorld) : POut × ProcState × List PEffect :=
  let p1 := { p with syncWaitActive := false }
  if w.stopTimeout then
    (.err "unable to kill process", p1, [.cancelSyncWait, .stopDaemon])
  else
    (.ok, { p1 with running := false }, [.cancelSyncWait, .stopDaemon])

/-- `Process.start`: spawn the daemon (publishing the running flag), then
try to connect until `opTimeout`; on connect timeout stop the daemon again
and fail. -/
def pstart (p : ProcState) (w : PWorld) : POut × ProcState × List PEffect :=
  if !w.startSpawnOK then
    (.err "failed to start process", p, [])
  else
    let p1 := { p with running := true }
    if w.startConnectOK then
      (.ok, p1, [.startDaemon])
    else
      let (_, p2, e2) := pstop p1 w
      (.err "timed out waiting for process to start", p2, .startDaemon :: e2)

/-- `Process.waitForSync` (the spawning part): replace `cancelSyncWait`
with a canceller for a fresh goroutine and spawn the goroutine; the loop
body itself is modelled by `waitForSyncLoop`. -/
def pwaitForSync (p : ProcState) (downstream : Option PInstance) (enableWrites : Bool) :
    ProcState × List PEffect :=
  ({ p with syncWaitActive := true }, [.spawnSyncWait downstream enableWrites])

/-- `Process.assumePrimary`: when already running as sync this is a
promotion and only a catch-up wait with writes enabled is started;
otherwise write the config, start the daemon, initialise the replica set
(stopping the daemon again when that fails) and start a catch-up wait when
a downstream is present. -/
def assumePrimary (p : ProcState) (w : PWorld) (downstream : Option PInstance) :
    POut × ProcState × List PEffect :=
  if p.running && ((p.config.map PConfig.role).getD .roleNone) == .roleSync then
    let (p1, e1) := pwaitForSync p downstream true
    (.ok, p1, e1)
  else if p.running then
    (.panicked "unexpected state running", p, [])
  else if !w.writeConfigOK then
    (.err "error writing config", p, [])
  else
    match pstart p w with
    | (.ok, p1, e1) =>
      if w.initPrimaryOK then
        match downstream with
        | some _ =>
          let (p2, e2) := pwaitForSync p1 downstream true
          (.ok, p2, [.writeConfig] ++ e1 ++ [.initPrimary] ++ e2)
        | none => (.ok, p1, [.writeConfig] ++ e1 ++ [.initPrimary])
      else
        let (_, p2, e2) := pstop p1 w
        (.err "error initializing primary", p2, [.writeConfig] ++ e1 ++ e2)
    | (r, p1, e1) => (r, p1, [.writeConfig] ++ e1)

/-- `Process.assumeStandby`: write the config; when running stop the
daemon, otherwise wait for the upstream to come online; then start the
daemon, connect locally, and start a catch-up wait when a downstream is
present. -/
def assumeStandby (p : ProcState) (w : PWorld)
    (_upstream downstream : Option PInstance) : POut × ProcState × List PEffect :=
  if !w.writeConfigOK then
    (.err "error writing config", p, [])
  else
    let stage :=
      if p.running then
        match pstop p w with
        | (.ok, p1, e1) => .ok (p1, e1)
        | (.err m, p1, e1) => .error (m, p1, e1)
        | (.panicked m, p1, e1) => .error (m, p1, e1)
      else
        match waitForUpstream w.upstreamResps with
        | .ok _ => Except.ok (p, [PEffect.waitUpstream])
        | .error m => Except.error (m, p, [PEffect.waitUpstream])
    match stage with
    | .error (m, p1, e1) => (.err m, p1, [.writeConfig] ++ e1)
    | .ok (p1, e1) =>
      match pstart p1 w with
      | (.ok, p2, e2) =>
        if !w.connectLocalOK then
          (.err "error acquiring session", p2, [.writeConfig] ++ e1 ++ e2)
        else
          match downstream with
          | some _ =>
            let (p3, e3) := pwaitForSync p2 downstream false
            (.ok, p3, [.writeConfig] ++ e1 ++ e2 ++ e3)
          | none => (.ok, p2, [.writeConfig] ++ e1 ++ e2)
      | (r, p2, e2) => (r, p2, [.writeConfig] ++ e1 ++ e2)

/-- The inner `Process.reconfigure`: the three nothing-to-do cases, then
cancellation of any outstanding catch-up wait, the downstream-only change
case, and the role-based assume; on success the config is stored and
marked applied. `config = none` is the `Start` path, which re-applies the
stored config. -/
def reconfigure (p : ProcState) (w : PWorld) (config : Option PConfig) :
    POut × ProcState × List PEffect :=
  let inner : POut × ProcState × List PEffect :=
    if (config.map (fun c => c.role == .roleNone)).getD false then
      (.ok, p, [])
    else if p.configApplied && config.isSome && p.config.isSome &&
        ((config.bind (fun c => p.config.map (fun pc => c.equal pc))).getD false) then
      (.ok, p, [])
    else if p.configApplied && p.running &&
        ((p.config.map PConfig.role).getD .roleNone) == .roleAsync &&
        ((config.map PConfig.role).getD .roleNone) == .roleSync &&
        peerId (config.bind PConfig.upstream) == peerId (p.config.bind PConfig.upstream) then
      (.ok, p, [])
    else
      let p1 := { p with syncedDownstream := none, syncWaitActive := false }
      if p.running &&
          ((p.config.bind (fun pc => config.map (fun c => pc.isNewDownstream c))).getD false) then
        let (p2, e2) := pwaitForSync p1 (config.bind PConfig.downstream) false
        (.ok, p2, [.cancelSyncWait] ++ e2)
      else
        let cfg := (config.getD (p.config.getD ⟨.roleNone, none, none⟩))
        if cfg.role == .rolePrimary then
          let (r, p2, e2) := assumePrimary p1 w cfg.downstream
          (r, p2, [.cancelSyncWait] ++ e2)
        else
          let (r, p2, e2) := assumeStandby p1 w cfg.upstream cfg.downstream
          (r, p2, [.cancelSyncWait] ++ e2)
  match inner with
  | (.ok, p1, effs) =>
    let cfg := (config.getD (p.config.getD ⟨.roleNone, none, none⟩))
    (.ok, { p1 with config := some cfg, configApplied := true }, effs)
  | r => r

/-- The role validation at the top of `Process.Reconfigure`. -/
def validateConfig (singleton : Bool) (c : PConfig) : Option String :=
  match c.role with
  | .rolePrimary => if !singleton && c.downstream.isNone then some "missing downstream peer" else none
  | .roleSync => if c.upstream.isNone then some "missing upstream peer" else none
  | .roleAsync => if c.upstream.isNone then some "missing upstream peer" else none
  | .roleNone => none

/-- `Process.Reconfigure`: validate the config; when not running just
store it unapplied, otherwise run the full `reconfigure`. -/
def Reconfigure (p : ProcState) (w : PWorld) (singleton : Bool) (c : PConfig) :
    POut × ProcState × List PEffect :=
  match validateConfig singleton c with
  | some m => (.err m, p, [])
  | none =>
    if !p.running then
      (.ok, { p with config := some c, configApplied := false }, [])
    else
      reconfigure p w (some c)

/-- `Process.Start`: fails when already running, unconfigured, or
configured with role none; otherwise re-applies the stored config. -/
def Start (p : ProcState) (w : PWorld) : POut × ProcState × List PEffect :=
  if p.running then
    (.err "process already running", p, [])
  else
    match p.config with
    | none => (.err "unconfigured process", p, [])
    | some c =>
      if c.role == .roleNone then
        (.err "start attempted with role none", p, [])
      else
        reconfigure p w none

/-- `Process.Stop`: fails when already stopped, otherwise stops the daemon. -/
def Stop (p : ProcState) (w : PWorld) : POut × ProcState × List PEffect :=
  if !p.running then
    (.err "process already stopped", p, [])
  else
    pstop p w

/-- `Process.isReadWrite`: false when not running; when running the live
code panics at the `FIXME` stub. -/
inductive BoolOrPanic
  | val (b : Bool)
  | panicked
deriving DecidableEq, Repr

/-- `Process.isReadWrite` as in the source: the read-write probe is an
unimplemented stub that panics whenever the daemon runs. -/
def isReadWrite (p : ProcState) : BoolOrPanic :=
  if p.running then .panicked else .val false

/-- The part of a process state observable through `Process.Info`
(`DatabaseInfo.Config`, `.Running`, `.SyncedDownstream`). -/
def observable (p : ProcState) : Bool × Option PConfig × Option PInstance :=
  (p.running, p.config, p.syncedDownstream)

/-! ### The catch-up wait loop (`Process.waitForSync` goroutine body) -/

/-- Modelled from the spec: the mongodb xlog `Compare` is not under `src/`;
positions are opaque and totally ordered with
`compare(a,b) ∈ {-1,0,+1}`, so positions are embedded as naturals under
the natural order. -/
def xcompare (a b : Nat) : Int :=
  if a < b then -1 else if a = b then 0 else 1

/-- One iteration of the catch-up loop: the freshly read master position
and downstream (slave) position; `none` models a read error. -/
structure SyncIter where
  master : Option Nat
  slave : Option Nat
deriving DecidableEq, Repr

/-- The result of the catch-up loop: caught up (carrying the freshly read
pair of positions the decision was made on), stalled past the progress
deadline, or cancelled (the readings ran out, i.e. `stopCh` fired). -/
inductive SyncOutcome
  | caughtUp (master slave : Nat)
  | stalled
  | canceled
deriving DecidableEq, Repr

/-- The body of the `waitForSync` goroutine. One list entry per loop
iteration (each iteration sleeps `checkInterval`); `elapsed` is the number
of ticks since `startTime` was last reset, `prev` the previous slave
position (initially zero). A read error resets the start time; equality of
the fresh master and slave positions means caught up; strict slave
progress resets the start time; when the elapsed time at this iteration
exceeds `replTimeout` ticks the loop stalls. -/
def waitForSyncLoop (replTimeout : Nat) :
    List SyncIter → Nat → Nat → SyncOutcome
  | [], _, _ => .canceled
  | r :: rest, elapsed, prev =>
    match r.master, r.slave with
    | none, _ => waitForSyncLoop replTimeout rest 1 prev
    | some _, none => waitForSyncLoop replTimeout rest 1 prev
    | some m, some s =>
      if xcompare m s = 0 then .caughtUp m s
      else
        let next := if xcompare prev s = -1 then 1 else elapsed + 1
        if decide (elapsed > replTimeout) then .stalled
        else waitForSyncLoop replTimeout rest next s

/-- Applying the outcome of a catch-up wait to the process state: the
goroutine only ever stores `syncedDownstreamValue` (on catch-up); the
write-enabling step in the source is commented out and nothing else is
touched. -/
def runSyncWait (p : ProcState) (downstream : PInstance) (replTimeout : Nat)
    (iters : List SyncIter) : ProcState :=
  match waitForSyncLoop replTimeout iters 0 0 with
  | .caughtUp _ _ => { p with syncedDownstream := some downstream, syncWaitActive := false }
  | _ => { p with syncWaitActive := false }

/-! ## Libvirt LXC container backend (`host/libvirt_lxc_backend.go`) -/

/-- Status of an `ActiveJob` in the host state registry. -/
inductive JobStatus
  | starting
  | running
  | done
  | crashed
  | failed
deriving DecidableEq, Repr

/-- Result of one `Signal` RPC to the in-container init: success, the
`rpcplus.ErrShutdown` error of a disconnected client, or some other error. -/
inductive SigRes
  | ok
  | errShutdown
  | errOther
deriving DecidableEq, Repr

/-- Error of a backend `Stop`: `rpcplus.ErrShutdown` or another error
carrying its message. -/
inductive StopErr
  | shutdown
  | other (msg : String)
deriving DecidableEq, Repr

/-- Oracle for one `libvirtContainer.Stop`: the outcome of the `SIGTERM`
signal, whether the container's `done` channel closes within the 10 s
`WaitStop`, and the outcome of the `SIGKILL` signal. -/
structure StopEnv where
  sigterm : SigRes
  doneWithin10s : Bool
  sigkill : SigRes
deriving DecidableEq, Repr

/-- Host-side view of the backend at `Stop` time: which job ids are in the
`containers` map and the status of each job in the host state registry. -/
structure BackendView where
  containers : List String
  statuses : List (String × JobStatus)
deriving DecidableEq, Repr

/-- Status of a job in the registry (`state.GetJob(id).Status`); a job
never added reads as starting. -/
def BackendView.statusOf (s : BackendView) (id : String) : JobStatus :=
  (s.statuses.lookup id).getD .starting

/-- A `Signal` RPC as an error value. -/
def sigErr : SigRes → Option StopErr
  | .ok => none
  | .errShutdown => some .shutdown
  | .errOther => some (.other "signal error")

/-- `libvirtContainer.Stop`: send `SIGTERM` (propagating its error); then
`WaitStop(10s)` returns nil at once when the job status is done or failed,
or when `done` closes in time; on timeout send `SIGKILL` and return its
result. -/
def containerStop (status : JobStatus) (env : StopEnv) : Option StopErr :=
  match sigErr env.sigterm with
  | some e => some e
  | none =>
    if status = .done || status = .failed then none
    else if env.doneWithin10s then none
    else sigErr env.sigkill

/-- `LibvirtLXCBackend.Stop`: look up the container (failing with the
unknown-container error when it is not registered), stop it, and treat an
`ErrShutdown` from the disconnected init RPC as success. The host state is
returned untouched: `Stop` never writes a status. -/
def backendStop (s : BackendView) (id : String) (env : StopEnv) :
    Option StopErr × BackendView :=
  if !s.containers.contains id then
    (some (.other "libvirt: unknown container"), s)
  else
    match containerStop (s.statusOf id) env with
    | some .shutdown => (none, s)
    | r => (r, s)

/-- The tail of a successful container exit: the watcher goroutine records
status done with the exit code, deletes the backend entry and runs
cleanup, then closes `done` (`libvirtContainer.watch` defer plus the
`StateExited` arm). -/
def watcherExitDone (s : BackendView) (id : String) : BackendView :=
  { containers := s.containers.filter (fun c => c ≠ id)
    statuses := (id, JobStatus.done) :: s.statuses.filter (fun p => p.1 ≠ id) }

/-- `LibvirtLXCBackend.Cleanup` job selection: every registered container
whose id is not in the allow-list is stopped (concurrently in the source). -/
def cleanupIds (containers : List String) (except : List String) : List String :=
  containers.filter (fun id => !except.contains id)

/-- The error-collection loop of `Cleanup`: receive one `Stop` result per
spawned goroutine in completion order and keep overwriting `err` with
every non-nil error received. -/
def cleanupCollect (errs : List (Option StopErr)) : Option StopErr :=
  errs.foldl (fun acc e => match e with | some x => some x | none => acc) none

/-- The first non-nil error of a result list, for comparison with what the
collection loop actually returns. -/
def firstErr (errs : List (Option StopErr)) : Option StopErr :=
  errs.foldl (fun acc e => match acc with | some _ => acc | none => e) none

/-- `LibvirtLXCBackend.Cleanup`: results of the `Stop` goroutines are
received in the completion order `arrival` (a permutation of
`cleanupIds containers except`, each id's result given by `stopResult`)
and the collected error is returned. -/
def backendCleanup (stopResult : List (String × Option StopErr))
    (arrival : List String) : Option StopErr :=
  cleanupCollect (arrival.map (fun id => (stopResult.lookup id).getD none))

/-- Default-env state of the backend: the `defaultEnv` map and whether the
`discoverdConfigured` channel has been closed. -/
structure EnvState where
  defaultEnv : List (String × String)
  discoverdClosed : Bool
deriving DecidableEq, Repr

/-- Insert-or-replace into an association-list map (Go map assignment). -/
def envInsert (e : List (String × String)) (k v : String) : List (String × String) :=
  if (e.lookup k).isSome then
    e.map (fun p => if p.1 = k then (k, v) else p)
  else e ++ [(k, v)]

/-- Right-biased merge of two association-list maps. -/
def envMerge (base over : List (String × String)) : List (String × String) :=
  over.foldl (fun acc p => envInsert acc p.1 p.2) base

/-- The decimal digit string of a natural number, as computed by the
standard library printer (`Nat.toDigitsCore`), in direct recursive form —
used to reason about the `PORT_<i>` env keys built with `strconv.Itoa`. -/
def reprDigits (n : Nat) : List Char :=
  if _h : n < 10 then [Nat.digitChar n]
  else reprDigits (n / 10) ++ [Nat.digitChar (n % 10)]
termination_by n
decreasing_by
  exact Nat.div_lt_self (by omega) (by omega)

/-- `LibvirtLXCBackend.SetDefaultEnv`: record the pair in `defaultEnv`;
when the key is `DISCOVERD`, close `discoverdConfigured` — closing an
already-closed Go channel panics, modelled as `none`. -/
def setDefaultEnv (s : EnvState) (k v : String) : Option EnvState :=
  let s1 := { s with defaultEnv := envInsert s.defaultEnv k v }
  if k = "DISCOVERD" then
    if s.discoverdClosed then none
    else some { s1 with discoverdClosed := true }
  else some s1

/-! ### `LibvirtLXCBackend.Run` -/

/-- A requested port binding (`host.Port`). -/
structure Port where
  proto : String
  port : Nat
deriving DecidableEq, Repr

/-- A requested bind mount (`host.Mount`): host `target` path mounted at
`location` inside the rootfs. -/
structure MountReq where
  target : String
  location : String
  writeable : Bool
deriving DecidableEq, Repr

/-- A requested volume mount (`host.VolumeBinding`). -/
structure VolumeReq where
  volumeID : String
  target : String
  writeable : Bool
deriving DecidableEq, Repr

/-- The parts of `host.ContainerConfig` that `Run` reads and writes. -/
structure JobConfig where
  env : List (String × String)
  ports : List Port
  mounts : List MountReq
  volumes : List VolumeReq
  hostNetwork : Bool
  tty : Bool
  openStdin : Bool
  disableLog : Bool
  workingDir : String
  entrypoint : List String
  cmd : List String
deriving DecidableEq, Repr

/-- A job request (`host.Job`): id, cgroup partition and config. -/
structure Job where
  id : String
  partition : String
  config : JobConfig
deriving DecidableEq, Repr

/-- `defaultPartition` from the source. -/
def defaultPartition : String := "user"

/-- Oracle for everything outside `Run` itself: the force-stop flag of the
job, the known cgroup partitions, the two configuration barriers, the IP
the allocator would hand out, the checkout root path, the pulled image's
config defaults, the volume ids the volume manager knows, the backend's
default env, the bridge address, and the index (in execution order) of the
first external operation that fails, if any. -/
structure RunWorld where
  forceStop : Bool
  partitions : List String
  networkConfigured : Bool
  discoverdConfigured : Bool
  ip : Nat
  rootPath : String
  imageUser : String
  imageWorkingDir : String
  imageEntrypoint : List String
  imageCmd : List String
  volumes : List String
  defaultEnv : List (String × String)
  bridgeAddr : Nat
  failAt : Option Nat
deriving DecidableEq, Repr

/-- Whether external operation number `k` succeeds in world `w`. -/
def opOk (w : RunWorld) (k : Nat) : Bool :=
  w.failAt != some k

/-- `filepath.Join` restricted to the shapes `Run` uses. -/
def pjoin (a b : String) : String := a ++ "/" ++ b

/-- The hostname derived from a job id: the segment after the first `-`
(`strings.SplitN(id, "-", 2)`), truncated to 64 characters. -/
def hostnameOf (id : String) : String :=
  let h :=
    match id.splitOn "-" with
    | [] => id
    | [x] => x
    | _ :: rest => String.intercalate "-" rest
  (h.toList.take 64).asString

/-- The baseline env written first into every container config. -/
def baselineEnv : List (String × String) :=
  [("PATH", "/usr/local/sbin:/usr/local/bin:/usr/sbin:/usr/bin:/sbin:/bin"),
   ("TERM", "xterm"),
   ("HOME", "/")]

/-- The port-assignment loop of `Run`: reject a proto other than tcp/udp;
default a zero port at index `i` to `5000 + i`; export `PORT` for the
first port and `PORT_<i>` for every index. Returns the assigned ports and
the updated job env. -/
def assignPortsLoop : List Port → Nat → List (String × String) →
    Except String (List Port × List (String × String))
  | [], _, env => .ok ([], env)
  | p :: rest, i, env =>
    if p.proto != "tcp" && p.proto != "udp" then
      .error ("unknown port proto " ++ p.proto)
    else
      let newPort := if p.port = 0 then 5000 + i else p.port
      let env1 := if i = 0 then envInsert env "PORT" (toString newPort) else env
      let env2 := envInsert env1 ("PORT_" ++ toString i) (toString newPort)
      match assignPortsLoop rest (i + 1) env2 with
      | .ok (ps, envR) => .ok (⟨p.proto, newPort⟩ :: ps, envR)
      | .error e => .error e

/-- The requested-mounts loop of `Run`: per mount, create the mount-point
directory, reject an empty target, and bind mount. Threads the external
operation counter and the list of bind mounts made so far; an error
carries both. -/
def mountLoop (w : RunWorld) (root : String) :
    List MountReq → Nat → List String →
    Except (String × List String) (Nat × List String)
  | [], k, ms => .ok (k, ms)
  | m :: rest, k, ms =>
    if !opOk w k then .error ("error creating directory for mount point", ms)
    else if m.target = "" then .error ("host: invalid empty mount target", ms)
    else if !opOk w (k + 1) then .error ("error bind mounting", ms)
    else mountLoop w root rest (k + 2) (ms ++ [pjoin root m.location])

/-- The volumes loop of `Run`: per volume, fail when the volume manager
does not know the id, create the mount point, and bind mount. -/
def volumeLoop (w : RunWorld) (root : String) :
    List VolumeReq → Nat → List String →
    Except (String × List String) (Nat × List String)
  | [], k, ms => .ok (k, ms)
  | v :: rest, k, ms =>
    if !w.volumes.contains v.volumeID then
      .error ("required volume " ++ v.volumeID ++ " does not exist", ms)
    else if !opOk w k then .error ("error creating mount point for volume", ms)
    else if !opOk w (k + 1) then .error ("error bind mounting volume", ms)
    else volumeLoop w root rest (k + 2) (ms ++ [pjoin root v.target])

/-- The container init config that `Run` writes to `.containerconfig`. -/
structure InitConfigM where
  tty : Bool
  openStdin : Bool
  workDir : String
  ipCIDR : Option String
  gateway : Option String
  args : List String
  ports : List Port
  env : List (String × String)
deriving DecidableEq, Repr

/-- Successful outcome of the post-allocation part of `Run`. -/
structure RunSuccess where
  mounted : List String
  ports : List Port
  env : List (String × String)
  written : InitConfigM
deriving DecidableEq, Repr

/-- The env that `Run` leaves in the job config after port assignment:
`EXTERNAL_IP` is added for bridged-network jobs. -/
def runJobEnv (ipOpt : Option Nat) (env1 : List (String × String)) :
    List (String × String) :=
  match ipOpt with
  | some ip => envInsert env1 "EXTERNAL_IP" (toString ip)
  | none => env1

/-- The init config `Run` composes: working directory defaulted from the
image, argv from entrypoint/cmd with image defaults, the assigned ports,
and the env merged in precedence order baseline < host default < job env
< HOSTNAME. -/
def composeInitConfig (w : RunWorld) (job : Job) (ipOpt : Option Nat)
    (ports : List Port) (env2 : List (String × String)) : InitConfigM :=
  { tty := job.config.tty
    openStdin := job.config.openStdin
    workDir := if job.config.workingDir = "" then w.imageWorkingDir
      else job.config.workingDir
    ipCIDR := ipOpt.map (fun ip => toString ip ++ "/24")
    gateway := ipOpt.map (fun _ => toString w.bridgeAddr)
    args := if job.config.entrypoint ≠ [] then
        job.config.entrypoint ++ job.config.cmd
      else
        w.imageEntrypoint ++ (if job.config.cmd ≠ [] then job.config.cmd else w.imageCmd)
    ports := ports
    env := envMerge (envMerge (envMerge baselineEnv w.defaultEnv) env2)
      [("HOSTNAME", hostnameOf job.id)] }

/-- The tail of the post-allocation steps once ports and env are
assigned: write the init config, then define, create and introspect the
domain. -/
def runStepsTail (w : RunWorld) (job : Job) (ipOpt : Option Nat) (k2 : Nat)
    (ms4 : List String) (ports : List Port) (env1 : List (String × String)) :
    Except (String × List String) RunSuccess :=
  if !opOk w k2 then .error ("error writing config", ms4)
  else if !opOk w (k2 + 1) then .error ("error defining domain", ms4)
  else if !opOk w (k2 + 2) then .error ("error creating domain", ms4)
  else if !opOk w (k2 + 3) then .error ("error getting domain uuid", ms4)
  else if !opOk w (k2 + 4) then .error ("error getting domain xml", ms4)
  else if !opOk w (k2 + 5) then .error ("error unmarshalling domain xml", ms4)
  else .ok ⟨ms4, ports, runJobEnv ipOpt env1,
    composeInitConfig w job ipOpt ports (runJobEnv ipOpt env1)⟩

/-- The body of `Run` after IP allocation, in source order: resolve the
artifact URI, pull the image, read its config, check out the rootfs, bind
mount the init binary and the resolver file, write `/etc/hosts`, make the
shared directory, apply requested mounts and volumes, assign ports and
env, then write the config and handle the domain (`runStepsTail`). An
error carries the message and the bind mounts made so far. -/
def runSteps (w : RunWorld) (job : Job) (ipOpt : Option Nat) (k0 : Nat) :
    Except (String × List String) RunSuccess :=
  if !opOk w k0 then .error ("error resolving artifact URI", [])
  else if !opOk w (k0 + 1) then .error ("error pulling image", [])
  else if !opOk w (k0 + 2) then .error ("error reading image config", [])
  else if !opOk w (k0 + 3) then .error ("error checking out image", [])
  else if !opOk w (k0 + 4) then .error ("error bind mounting .containerinit", [])
  else if !opOk w (k0 + 5) then
    .error ("error creating /etc in container root", [pjoin w.rootPath ".containerinit"])
  else if !opOk w (k0 + 6) then
    .error ("error bind mounting resolv.conf", [pjoin w.rootPath ".containerinit"])
  else if !opOk w (k0 + 7) then
    .error ("error writing hosts file",
      [pjoin w.rootPath ".containerinit", pjoin w.rootPath "etc/resolv.conf"])
  else if !opOk w (k0 + 8) then
    .error ("error creating .container-shared",
      [pjoin w.rootPath ".containerinit", pjoin w.rootPath "etc/resolv.conf"])
  else
    match mountLoop w w.rootPath job.config.mounts (k0 + 9)
        [pjoin w.rootPath ".containerinit", pjoin w.rootPath "etc/resolv.conf"] with
    | .error e => .error e
    | .ok (k1, ms3) =>
      match volumeLoop w w.rootPath job.config.volumes k1 ms3 with
      | .error e => .error e
      | .ok (k2, ms4) =>
        match assignPortsLoop job.config.ports 0 job.config.env with
        | .error msg => .error (msg, ms4)
        | .ok (ports, env1) => runStepsTail w job ipOpt k2 ms4 ports env1

/-- Result of a `Run` call: success, blocked forever on one of the two
configuration barriers, or an error. -/
inductive RunResult
  | ok
  | blockedNetwork
  | blockedDiscoverd
  | err (msg : String)
deriving DecidableEq, Repr

/-- Observable outcome of `Run`: the result; the job's IP as still held in
the allocator when `Run` returns; the bind mounts still active; whether
the deferred `SetStatusFailed` ran; whether a `container.cleanup`
goroutine was spawned (`go container.cleanup()` in the error defer);
whether the watcher goroutine was spawned; and the final job ports, job
env and written init config. -/
structure RunOut where
  result : RunResult
  ip : Option Nat
  mounted : List String
  statusFailed : Bool
  cleanupSpawned : Bool
  watcherSpawned : Bool
  jobPorts : List Port
  jobEnv : List (String × String)
  written : Option InitConfigM
deriving DecidableEq, Repr

/-- `LibvirtLXCBackend.Run`: skip force-stopped jobs; default and validate
the partition; block on the network and discoverd barriers; allocate an IP
unless the job uses the host network; then run the post-allocation steps.
Every error return after allocation spawns `container.cleanup` (it runs
asynchronously; its effect on the state is `cleanupApply`). -/
def defaultJob (job0 : Job) : Job :=
  if job0.partition = "" then { job0 with partition := defaultPartition } else job0

/-- The part of `Run` before the post-allocation steps: either an early
return (force-stopped job, invalid partition, a blocked barrier, or a
failed IP request — all before the cleanup defer is installed), or
proceeding into the body with the allocated IP and the external-operation
counter after the allocation. -/
inductive RunGate
  | early (o : RunOut)
  | proceed (ipOpt : Option Nat) (k0 : Nat)
deriving DecidableEq, Repr

def runGate (w : RunWorld) (job0 : Job) : RunGate :=
  if w.forceStop then
    .early ⟨.ok, none, [], false, false, false, job0.config.ports, job0.config.env, none⟩
  else if !w.partitions.contains (defaultJob job0).partition then
    .early ⟨.err ("host: invalid job partition " ++ (defaultJob job0).partition), none, [],
      true, false, false, job0.config.ports, job0.config.env, none⟩
  else if !job0.config.hostNetwork && !w.networkConfigured then
    .early ⟨.blockedNetwork, none, [], false, false, false, job0.config.ports,
      job0.config.env, none⟩
  else if (job0.config.env.lookup "DISCOVERD").isNone && !w.discoverdConfigured then
    .early ⟨.blockedDiscoverd, none, [], false, false, false, job0.config.ports,
      job0.config.env, none⟩
  else if !job0.config.hostNetwork && !opOk w 0 then
    .early ⟨.err "error requesting ip", none, [], true, false, false,
      job0.config.ports, job0.config.env, none⟩
  else
    .proceed (if job0.config.hostNetwork then none else some w.ip)
      (if job0.config.hostNetwork then 0 else 1)

def run (w : RunWorld) (job0 : Job) : RunOut :=
  match runGate w job0 with
  | .early o => o
  | .proceed ipOpt k0 =>
    match runSteps w (defaultJob job0) ipOpt k0 with
    | .error (msg, ms) =>
      ⟨.err msg, ipOpt, ms, true, true, false, job0.config.ports, job0.config.env, none⟩
    | .ok s =>
      ⟨.ok, ipOpt, s.mounted, false, false, true, s.ports, s.env, some s.written⟩

/-- The bind mounts held at the end of the post-allocation steps, whether
they failed or succeeded. -/
def runStepsMounted : Except (String × List String) RunSuccess → List String
  | .error (_, ms) => ms
  | .ok s => s.mounted

/-- The bind mounts held at the end of a mount or volume loop, whether it
failed or succeeded. -/
def loopMounted : Except (String × List String) (Nat × List String) → List String
  | .error (_, ms) => ms
  | .ok (_, ms) => ms

/-- The bind-mount destinations `libvirtContainer.unbindMounts` unmounts:
the init binary, the resolver file, every requested mount location and
every volume target. -/
def unbindPaths (root : String) (cfg : JobConfig) : List String :=
  pjoin root ".containerinit" :: pjoin root "etc/resolv.conf" ::
    (cfg.mounts.map (fun m => pjoin root m.location) ++
      cfg.volumes.map (fun v => pjoin root v.target))

/-- The effect of `libvirtContainer.cleanup` once the spawned goroutine
runs: unbind all mounts and, when the job does not use the host network
and the bridge network is configured, release the IP. -/
def cleanupApply (netConfigured : Bool) (cfg : JobConfig) (root : String) (o : RunOut) : RunOut :=
  { o with
    mounted := o.mounted.filter (fun p => !(unbindPaths root cfg).contains p)
    ip := if !cfg.hostNetwork && netConfigured then none else o.ip }

/-! ## Theorems -/

/-- Partition-defaulting leaves the job config untouched. -/
theorem defaultJob_config (job0 : Job) : (defaultJob job0).config = job0.config := by
  unfold defaultJob
  split <;> rfl

/-- Every early return of the gate holds no IP and spawned no cleanup. -/
theorem runGate_early (w : RunWorld) (job : Job) (o : RunOut)
    (h : runGate w job = .early o) : o.ip = none ∧ o.cleanupSpawned = false := by
  unfold runGate at h
  split at h
  · cases h; exact ⟨rfl, rfl⟩
  · split at h
    · cases h; exact ⟨rfl, rfl⟩
    · split at h
      · cases h; exact ⟨rfl, rfl⟩
      · split at h
        · cases h; exact ⟨rfl, rfl⟩
        · split at h
          · cases h; exact ⟨rfl, rfl⟩
          · cases h

/-- When the gate proceeds past allocation for a bridged-network job, the
network barrier was open and the job holds the allocator's IP. -/
theorem runGate_proceed (w : RunWorld) (job : Job) (ipOpt : Option Nat) (k0 : Nat)
    (h : runGate w job = .proceed ipOpt k0) :
    (job.config.hostNetwork = false →
      ipOpt = some w.ip ∧ k0 = 1 ∧ w.networkConfigured = true) ∧
    (job.config.hostNetwork = true → ipOpt = none) := by
  unfold runGate at h
  split at h
  · cases h
  · split at h
    · cases h
    · split at h
      · cases h
      · split at h
        · cases h
        · split at h
          · cases h
          · rename_i hnet _ _
            cases h
            constructor
            · intro hhn
              refine ⟨by simp [hhn], by simp [hhn], ?_⟩
              rw [hhn] at hnet
              simpa using hnet
            · intro hhn
              simp [hhn]

/-- Once the discoverd barrier is open, no `Run` ever blocks on it. -/
theorem run_not_blockedDiscoverd (w : RunWorld) (job : Job)
    (h : w.discoverdConfigured = true) : (run w job).result ≠ .blockedDiscoverd := by
  unfold run
  split
  · rename_i o hgate
    unfold runGate at hgate
    split at hgate
    · cases hgate; simp
    · split at hgate
      · cases hgate; simp
      · split at hgate
        · cases hgate; simp
        · split at hgate
          · rename_i hcond
            simp [h] at hcond
          · split at hgate
            · cases hgate; simp
            · cases hgate
  · split <;> simp

/-- Claim C9: `Process.Start` fails, leaving the state untouched and
performing no effect, when the process already runs, when no config is
stored, or when the stored role is none; `Process.Stop` fails likewise on
a stopped process. -/
theorem C9_start_stop_guards (p : ProcState) (w : PWorld) :
    (p.running = true → Start p w = (.err "process already running", p, [])) ∧
    (p.running = false → p.config = none →
      Start p w = (.err "unconfigured process", p, [])) ∧
    (∀ c, p.running = false → p.config = some c → c.role = .roleNone →
      Start p w = (.err "start attempted with role none", p, [])) ∧
    (p.running = false → Stop p w = (.err "process already stopped", p, [])) := by
  refine ⟨fun h => ?_, fun h h2 => ?_, fun c h h2 h3 => ?_, fun h => ?_⟩ <;>
    simp [Start, Stop, h, *]

/-- Witness for C9 at concrete states: a running process, an unconfigured
one, one configured with role none, and a stopped process. -/
theorem C9_start_stop_guards_witness :
    Start ⟨true, none, false, none, false⟩ ⟨true, true, true, false, true, true, []⟩
        = (.err "process already running", ⟨true, none, false, none, false⟩, []) ∧
    Start ⟨false, none, false, none, false⟩ ⟨true, true, true, false, true, true, []⟩
        = (.err "unconfigured process", ⟨false, none, false, none, false⟩, []) ∧
    Start ⟨false, some ⟨.roleNone, none, none⟩, false, none, false⟩
        ⟨true, true, true, false, true, true, []⟩
        = (.err "start attempted with role none",
            ⟨false, some ⟨.roleNone, none, none⟩, false, none, false⟩, []) ∧
    Stop ⟨false, none, false, none, false⟩ ⟨true, true, true, false, true, true, []⟩
        = (.err "process already stopped", ⟨false, none, false, none, false⟩, []) :=
  ⟨(C9_start_stop_guards ⟨true, none, false, none, false⟩ _).1 rfl,
   (C9_start_stop_guards ⟨false, none, false, none, false⟩ _).2.1 rfl rfl,
   (C9_start_stop_guards ⟨false, some ⟨.roleNone, none, none⟩, false, none, false⟩ _).2.2.1
     ⟨.roleNone, none, none⟩ rfl rfl rfl,
   (C9_start_stop_guards ⟨false, none, false, none, false⟩ _).2.2.2 rfl⟩

/-- Claim C10: the first `SetDefaultEnv` with key `DISCOVERD` records the
value, closes the channel (unblocking the discoverd barrier of `Run`), and
any second such call panics by closing the already-closed channel. -/
theorem C10_discoverd_close_panics (s : EnvState) (v v2 : String)
    (h : s.discoverdClosed = false) :
    setDefaultEnv s "DISCOVERD" v =
      some ⟨envInsert s.defaultEnv "DISCOVERD" v, true⟩ ∧
    (∀ s1, setDefaultEnv s "DISCOVERD" v = some s1 →
      setDefaultEnv s1 "DISCOVERD" v2 = none) ∧
    (∀ s1 w job, setDefaultEnv s "DISCOVERD" v = some s1 →
      w.discoverdConfigured = s1.discoverdClosed →
      (run w job).result ≠ .blockedDiscoverd) := by
  refine ⟨by simp [setDefaultEnv, h], fun s1 h1 => ?_, fun s1 w job h1 hw => ?_⟩
  · simp [setDefaultEnv, h] at h1
    simp [setDefaultEnv, ← h1]
  · simp [setDefaultEnv, h] at h1
    have hdc : w.discoverdConfigured = true := by rw [hw, ← h1]
    exact run_not_blockedDiscoverd w job hdc

/-- Witness for C10 at a concrete env state. -/
theorem C10_discoverd_close_panics_witness :
    setDefaultEnv ⟨[], false⟩ "DISCOVERD" "http://10.0.0.1:1111" =
      some ⟨[("DISCOVERD", "http://10.0.0.1:1111")], true⟩ ∧
    setDefaultEnv ⟨[("DISCOVERD", "http://10.0.0.1:1111")], true⟩ "DISCOVERD" "x" = none :=
  ⟨(C10_discoverd_close_panics ⟨[], false⟩ "http://10.0.0.1:1111" "x" rfl).1,
   (C10_discoverd_close_panics ⟨[], false⟩ "http://10.0.0.1:1111" "x" rfl).2.1
     ⟨[("DISCOVERD", "http://10.0.0.1:1111")], true⟩
     (C10_discoverd_close_panics ⟨[], false⟩ "http://10.0.0.1:1111" "x" rfl).1⟩

/-- Claim C1, counterexample: a first `Stop` of a running container
succeeds; the watcher then records status done and deregisters the
container; the job status is terminal, yet a further `Stop` returns the
unknown-container error instead of nil. -/
theorem C1_counterexample :
    (backendStop ⟨["web-1"], [("web-1", .running)]⟩ "web-1" ⟨.ok, true, .ok⟩).1 = none ∧
    watcherExitDone ⟨["web-1"], [("web-1", .running)]⟩ "web-1"
      = ⟨[], [("web-1", .done)]⟩ ∧
    BackendView.statusOf ⟨[], [("web-1", .done)]⟩ "web-1" = .done ∧
    (backendStop ⟨[], [("web-1", .done)]⟩ "web-1" ⟨.ok, true, .ok⟩).1
      = some (.other "libvirt: unknown container") := by
  refine ⟨?_, ?_, ?_, ?_⟩ <;> rfl

/-- Claim C1, amended: while the container is still registered, `Stop` on
a job whose status is already terminal (done or failed) returns nil —
provided the `SIGTERM` RPC succeeds or fails with `ErrShutdown` — and
leaves the host state untouched; once the container has been deregistered
(as the watcher does after a stop completes), `Stop` instead returns the
unknown-container error. -/
theorem C1_stop_idempotent_amended (s : BackendView) (id : String) (env : StopEnv) :
    (s.containers.contains id = true →
      (s.statusOf id = .done ∨ s.statusOf id = .failed) →
      (env.sigterm = .ok ∨ env.sigterm = .errShutdown) →
      backendStop s id env = (none, s)) ∧
    (s.containers.contains id = false →
      backendStop s id env = (some (.other "libvirt: unknown container"), s)) := by
  constructor
  · intro hmem hterm hsig
    have hmem2 : id ∈ s.containers := by simpa using hmem
    have hstop : containerStop (s.statusOf id) env = none ∨
        containerStop (s.statusOf id) env = some .shutdown := by
      rcases hsig with h | h <;> rcases hterm with h2 | h2 <;>
        simp [containerStop, sigErr, h, h2]
    rcases hstop with h | h <;> simp [backendStop, hmem2, h]
  · intro hmem
    have hmem2 : ¬ id ∈ s.containers := by simpa using hmem
    simp [backendStop, hmem2]

/-- Witness for the amended C1: a registered container with status done is
stopped again with result nil; a deregistered one yields the error. -/
theorem C1_stop_idempotent_amended_witness :
    backendStop ⟨["web-1"], [("web-1", .done)]⟩ "web-1" ⟨.errShutdown, false, .ok⟩
      = (none, ⟨["web-1"], [("web-1", .done)]⟩) ∧
    backendStop ⟨[], [("web-1", .done)]⟩ "web-1" ⟨.ok, true, .ok⟩
      = (some (.other "libvirt: unknown container"), ⟨[], [("web-1", .done)]⟩) :=
  ⟨(C1_stop_idempotent_amended ⟨["web-1"], [("web-1", .done)]⟩ "web-1"
      ⟨.errShutdown, false, .ok⟩).1 rfl (Or.inl rfl) (Or.inr rfl),
   (C1_stop_idempotent_amended ⟨[], [("web-1", .done)]⟩ "web-1" ⟨.ok, true, .ok⟩).2 rfl⟩

/-- The error-collection fold keeps the most recent non-nil error: it
returns the last `some` of the list, or the accumulator if there is none. -/
theorem cleanupCollect_foldl (errs : List (Option StopErr)) :
    ∀ acc, errs.foldl (fun acc e => match e with | some x => some x | none => acc) acc
      = (List.find? Option.isSome errs.reverse).getD acc := by
  induction errs with
  | nil => intro acc; rfl
  | cons e l ih =>
    intro acc
    simp only [List.foldl_cons, List.reverse_cons]
    rw [ih]
    rcases hfind : List.find? Option.isSome l.reverse with _ | x
    · cases e <;> simp [List.find?_append, hfind, List.find?]
    · simp [List.find?_append, hfind]

/-- Claim C7, counterexample: with two containers `a`, `b` and an empty
allow-list, both are stopped; when `a` fails with `e1` and `b` with `e2`
(received in that order), `Cleanup` returns `e2`, the last error received,
not the first error encountered, `e1`. -/
theorem C7_counterexample :
    cleanupIds ["a", "b"] [] = ["a", "b"] ∧
    backendCleanup [("a", some (.other "e1")), ("b", some (.other "e2"))] ["a", "b"]
      = some (.other "e2") ∧
    firstErr [some (.other "e1"), some (.other "e2")] = some (.other "e1") ∧
    some (StopErr.other "e2") ≠ some (StopErr.other "e1") := by
  refine ⟨rfl, rfl, rfl, by decide⟩

/-- Claim C7, amended: `Cleanup` stops exactly the containers not in the
allow-list (concurrently; results arrive in some completion order
`arrival`), and returns the most recent non-nil `Stop` error received —
the last in arrival order, not the first — and nil when every `Stop`
succeeds. -/
theorem C7_cleanup_amended (containers except : List String)
    (stopResult : List (String × Option StopErr)) (arrival : List String)
    (hperm : arrival.Perm (cleanupIds containers except)) :
    (∀ id, id ∈ arrival ↔ id ∈ containers ∧ ¬ id ∈ except) ∧
    backendCleanup stopResult arrival =
      (List.find? Option.isSome
        ((arrival.map (fun id => (stopResult.lookup id).getD none)).reverse)).getD none ∧
    ((∀ id ∈ arrival, (stopResult.lookup id).getD none = none) →
      backendCleanup stopResult arrival = none) := by
  refine ⟨fun id => ?_, ?_, fun hall => ?_⟩
  · rw [hperm.mem_iff]
    simp [cleanupIds]
  · exact cleanupCollect_foldl _ none
  · rw [backendCleanup, cleanupCollect, cleanupCollect_foldl _ none]
    have : ∀ e ∈ (arrival.map (fun id => (stopResult.lookup id).getD none)).reverse,
        Option.isSome e = false := by
      intro e he
      rw [List.mem_reverse, List.mem_map] at he
      obtain ⟨id, hid, rfl⟩ := he
      rw [hall id hid]
      rfl
    rw [List.find?_eq_none.2 (by intro x hx h; rw [this x hx] at h; cases h)]
    rfl

/-- Witness for the amended C7 at a concrete backend: containers `a`, `b`,
`c` with `b` in the allow-list, `a` succeeding and `c` failing. -/
theorem C7_cleanup_amended_witness :
    (∀ id, id ∈ ["c", "a"] ↔ id ∈ ["a", "b", "c"] ∧ ¬ id ∈ ["b"]) ∧
    backendCleanup [("a", none), ("c", some (.other "boom"))] ["c", "a"]
      = (List.find? Option.isSome
          (((["c", "a"] : List String).map
            (fun id =>
              ((([("a", none), ("c", some (.other "boom"))] :
                List (String × Option StopErr))).lookup id).getD none)).reverse)).getD none ∧
    ((∀ id ∈ (["c", "a"] : List String),
        ((([("a", none), ("c", some (.other "boom"))] :
          List (String × Option StopErr))).lookup id).getD none = none) →
      backendCleanup [("a", none), ("c", some (.other "boom"))] ["c", "a"] = none) :=
  C7_cleanup_amended ["a", "b", "c"] ["b"]
    [("a", none), ("c", some (.other "boom"))] ["c", "a"] (by decide)

/-- Claim C5, counterexample: a running primary receives `Reconfigure`
with role none. The daemon is untouched and no catch-up wait is begun, but
the stored config changes to the role-none config — an observable state
change, so the transition is not a complete no-op. -/
theorem C5_counterexample :
    (Reconfigure ⟨true, some ⟨.rolePrimary, none, some ⟨"10.0.0.2:27017", "m2"⟩⟩,
        true, none, false⟩
      ⟨true, true, true, false, true, true, []⟩ false ⟨.roleNone, none, none⟩)
      = (.ok, ⟨true, some ⟨.roleNone, none, none⟩, true, none, false⟩, []) ∧
    observable ⟨true, some ⟨.roleNone, none, none⟩, true, none, false⟩
      ≠ observable ⟨true, some ⟨.rolePrimary, none, some ⟨"10.0.0.2:27017", "m2"⟩⟩,
          true, none, false⟩ := by
  refine ⟨by decide, by decide⟩

/-- Claim C5, amended: in each of the three cases the daemon is neither
started nor stopped and no catch-up wait is begun or cancelled (no effects
at all), but the new config is always stored as the current config: with
role none the stored config changes to the role-none config; with a config
equal to the applied one the state is observably unchanged; with a running
async→sync change to the same upstream only the stored role changes. -/
theorem C5_reconfigure_noop_amended (p : ProcState) (w : PWorld) (sing : Bool)
    (c pc : PConfig) :
    (c.role = .roleNone →
      Reconfigure p w sing c =
        (.ok, { p with config := some c, configApplied := p.running }, [])) ∧
    (p.config = some pc → c = pc → c.role ≠ .roleNone → p.configApplied = true →
      validateConfig sing c = none →
      Reconfigure p w sing c =
        (.ok, { p with config := some c, configApplied := p.running }, []) ∧
      observable { p with config := some c, configApplied := p.running } = observable p) ∧
    (p.running = true → p.configApplied = true → p.config = some pc →
      pc.role = .roleAsync → c.role = .roleSync → c.upstream.isSome = true →
      peerId c.upstream = peerId pc.upstream →
      Reconfigure p w sing c = (.ok, { p with config := some c }, [])) := by
  refine ⟨fun hrole => ?_, fun hpc hceq hrole happ hval => ?_, ?_⟩
  · have hval : validateConfig sing c = none := by
      simp [validateConfig, hrole]
    by_cases hr : p.running
    · simp [Reconfigure, reconfigure, hval, hr, hrole]
    · simp only [Bool.not_eq_true] at hr
      simp [Reconfigure, hval, hr]
  · subst hceq
    by_cases hr : p.running
    · have hne : (c == c) = true := by simp
      constructor
      · simp [Reconfigure, reconfigure, hval, hr, hpc, happ, PConfig.equal, hrole,
          PRole.roleNone]
      · simp [observable, hpc, hr]
    · simp only [Bool.not_eq_true] at hr
      refine ⟨by simp [Reconfigure, hval, hr], by simp [observable, hpc, hr]⟩
  · intro hr happ hpc hasync hsync hup hid
    have hcn : ¬ c.role = .roleNone := by rw [hsync]; intro h; cases h
    have hcpc : ¬ c = pc := by
      intro h
      rw [h, hasync] at hsync
      cases hsync
    have hval : validateConfig sing c = none := by
      simp only [validateConfig, hsync]
      cases hu : c.upstream with
      | none => rw [hu] at hup; cases hup
      | some u => simp
    simp [Reconfigure, reconfigure, hval, hr, hpc, happ, PConfig.equal, hcpc, hasync,
      hsync, hcn, hid, happ]

/-- Witness for the amended C5 at concrete states: a role-none
reconfigure of a stopped process, a re-delivery of the applied config to a
running sync, and an async→sync change with the same upstream. -/
theorem C5_reconfigure_noop_amended_witness :
    (Reconfigure ⟨false, some ⟨.rolePrimary, none, some ⟨"b:27017", "m2"⟩⟩, true, none, false⟩
        ⟨true, true, true, false, true, true, []⟩ false ⟨.roleNone, none, none⟩
      = (.ok, ⟨false, some ⟨.roleNone, none, none⟩, false, none, false⟩, [])) ∧
    (Reconfigure ⟨true, some ⟨.roleSync, some ⟨"a:27017", "m1"⟩, none⟩, true, none, false⟩
        ⟨true, true, true, false, true, true, []⟩ false
        ⟨.roleSync, some ⟨"a:27017", "m1"⟩, none⟩
      = (.ok, ⟨true, some ⟨.roleSync, some ⟨"a:27017", "m1"⟩, none⟩, true, none, false⟩,
          [])) ∧
    (Reconfigure ⟨true, some ⟨.roleAsync, some ⟨"a:27017", "m1"⟩, none⟩, true, none, false⟩
        ⟨true, true, true, false, true, true, []⟩ false
        ⟨.roleSync, some ⟨"a:27017", "m1"⟩, none⟩
      = (.ok, ⟨true, some ⟨.roleSync, some ⟨"a:27017", "m1"⟩, none⟩, true, none, false⟩,
          [])) := by
  refine ⟨?_, ?_, ?_⟩
  · exact (C5_reconfigure_noop_amended
      ⟨false, some ⟨.rolePrimary, none, some ⟨"b:27017", "m2"⟩⟩, true, none, false⟩
      ⟨true, true, true, false, true, true, []⟩ false ⟨.roleNone, none, none⟩
      ⟨.roleNone, none, none⟩).1 rfl
  · exact ((C5_reconfigure_noop_amended
      ⟨true, some ⟨.roleSync, some ⟨"a:27017", "m1"⟩, none⟩, true, none, false⟩
      ⟨true, true, true, false, true, true, []⟩ false
      ⟨.roleSync, some ⟨"a:27017", "m1"⟩, none⟩
      ⟨.roleSync, some ⟨"a:27017", "m1"⟩, none⟩).2.1 rfl rfl (by decide) rfl
      (by decide)).1
  · exact (C5_reconfigure_noop_amended
      ⟨true, some ⟨.roleAsync, some ⟨"a:27017", "m1"⟩, none⟩, true, none, false⟩
      ⟨true, true, true, false, true, true, []⟩ false
      ⟨.roleSync, some ⟨"a:27017", "m1"⟩, none⟩
      ⟨.roleAsync, some ⟨"a:27017", "m1"⟩, none⟩).2.2 rfl rfl rfl rfl rfl rfl rfl

/-- The upstream polling loop succeeds exactly when one of the first
`fuel + 1` status replies is ready, and otherwise fails with the
upstream-is-offline error. -/
theorem waitForUpstreamLoop_eq (fuel : Nat) : ∀ resps : List (Option UpStatus),
    waitForUpstreamLoop resps fuel =
      (if (resps.take (fuel + 1)).any (fun r => (r.map upstreamReady).getD false)
        then .ok () else .error "upstream is offline") := by
  induction fuel with
  | zero =>
    intro resps
    cases resps with
    | nil => simp [waitForUpstreamLoop]
    | cons r rest =>
      by_cases hr : ((r.map upstreamReady).getD false) = true <;>
        simp [waitForUpstreamLoop, hr]
  | succ n ih =>
    intro resps
    cases resps with
    | nil =>
      rw [show waitForUpstreamLoop [] (n + 1) = waitForUpstreamLoop [] n from by
        simp [waitForUpstreamLoop]]
      rw [ih]
      simp
    | cons r rest =>
      by_cases hr : ((r.map upstreamReady).getD false) = true
      · simp [waitForUpstreamLoop, hr]
      · rw [show waitForUpstreamLoop (r :: rest) (n + 1) = waitForUpstreamLoop rest n from by
          simp [waitForUpstreamLoop, hr]]
        rw [ih]
        simp [List.take_succ_cons, hr]

/-- Claim C6: when assuming a standby role with the daemon stopped, the
supervisor polls the upstream status every second (`checkInterval`) for up
to ten seconds (`upstreamTimeout`), a poll counting as ready exactly when
the upstream runs with a non-zero log position and an existing user; if no
poll is ready in time, `waitForUpstream` fails with "upstream is offline"
and `assumeStandby` returns that error without having started the local
daemon. -/
theorem C6_upstream_offline (p : ProcState) (w : PWorld) (u : PInstance)
    (d : Option PInstance) :
    (checkIntervalMs = 1000 ∧ upstreamTimeoutMs = 10000) ∧
    (∀ st : UpStatus,
      upstreamReady st = (st.running && st.xlog != xlogZeroStr && st.userExists)) ∧
    (∀ resps : List (Option UpStatus),
      waitForUpstream resps = .ok () ↔
        (resps.take 11).any (fun r => (r.map upstreamReady).getD false) = true) ∧
    (p.running = false → w.writeConfigOK = true →
      (w.upstreamResps.take 11).any (fun r => (r.map upstreamReady).getD false) = false →
      assumeStandby p w (some u) d
        = (.err "upstream is offline", p, [.writeConfig, .waitUpstream]) ∧
      PEffect.startDaemon ∉ [PEffect.writeConfig, PEffect.waitUpstream]) := by
  have hfuel : upstreamTimeoutMs / checkIntervalMs = 10 := by norm_num [upstreamTimeoutMs,
    checkIntervalMs]
  refine ⟨⟨rfl, rfl⟩, fun st => rfl, fun resps => ?_, fun hr hwc hany => ?_⟩
  · rw [waitForUpstream, hfuel, waitForUpstreamLoop_eq]
    by_cases h : (resps.take 11).any (fun r => (r.map upstreamReady).getD false) = true <;>
      simp [h]
  · have hwait : waitForUpstream w.upstreamResps = .error "upstream is offline" := by
      rw [waitForUpstream, hfuel, waitForUpstreamLoop_eq, hany]
      rfl
    refine ⟨?_, by decide⟩
    simp [assumeStandby, hwc, hr, hwait]

/-- Witness for C6: a stopped supervisor whose upstream never responds. -/
theorem C6_upstream_offline_witness :
    assumeStandby ProcState.initial ⟨true, true, true, false, true, true, []⟩
        (some ⟨"a:27017", "m1"⟩) none
      = (.err "upstream is offline", ProcState.initial, [.writeConfig, .waitUpstream]) :=
  ((C6_upstream_offline ProcState.initial ⟨true, true, true, false, true, true, []⟩
    ⟨"a:27017", "m1"⟩ none).2.2.2 rfl rfl rfl).1

/-- The catch-up loop reports caught-up only with the pair of positions it
read in that same iteration: the pair compares equal and occurs in the
trace of readings. -/
theorem waitForSyncLoop_caughtUp (rt : Nat) :
    ∀ (iters : List SyncIter) (e prev m s : Nat),
      waitForSyncLoop rt iters e prev = .caughtUp m s →
      xcompare m s = 0 ∧ (⟨some m, some s⟩ : SyncIter) ∈ iters := by
  intro iters
  induction iters with
  | nil =>
    intro e prev m s h
    cases h
  | cons r rest ih =>
    intro e prev m s h
    rcases r with ⟨mo, so⟩
    cases mo with
    | none =>
      simp only [waitForSyncLoop] at h
      obtain ⟨h1, h2⟩ := ih _ _ _ _ h
      exact ⟨h1, List.mem_cons_of_mem _ h2⟩
    | some m0 =>
      cases so with
      | none =>
        simp only [waitForSyncLoop] at h
        obtain ⟨h1, h2⟩ := ih _ _ _ _ h
        exact ⟨h1, List.mem_cons_of_mem _ h2⟩
      | some s0 =>
        simp only [waitForSyncLoop] at h
        split at h
        · rename_i hcmp
          cases h
          exact ⟨hcmp, List.mem_cons_self _ _⟩
        · split at h
          · cases h
          · obtain ⟨h1, h2⟩ := ih _ _ _ _ h
            exact ⟨h1, List.mem_cons_of_mem _ h2⟩

/-- With constant readings that never compare equal and never progress,
the catch-up loop stalls once the elapsed ticks pass the deadline. -/
theorem waitForSyncLoop_stall_aux (rt m s : Nat) (hne : xcompare m s ≠ 0) :
    ∀ (k e : Nat), 1 ≤ k → rt + 2 ≤ k + e →
      waitForSyncLoop rt (List.replicate k ⟨some m, some s⟩) e s = .stalled := by
  intro k
  induction k with
  | zero =>
    intro e h1 _
    omega
  | succ n ih =>
    intro e _ h2
    rw [List.replicate_succ]
    simp only [waitForSyncLoop]
    rw [if_neg hne]
    have hss : ¬ xcompare s s = -1 := by simp [xcompare]
    rw [if_neg hss]
    by_cases he : rt < e
    · rw [if_pos (by simpa using he)]
    · rw [if_neg (by simpa using he)]
      exact ih (e + 1) (by omega) (by omega)

/-- Starting the catch-up loop fresh on such a constant trace of length at
least `replTimeout + 2` stalls. -/
theorem waitForSyncLoop_stall (rt m s k : Nat) (hne : xcompare m s ≠ 0)
    (hk : rt + 2 ≤ k) :
    waitForSyncLoop rt (List.replicate k ⟨some m, some s⟩) 0 0 = .stalled := by
  cases k with
  | zero => omega
  | succ n =>
    rw [List.replicate_succ]
    simp only [waitForSyncLoop]
    rw [if_neg hne]
    rw [show (if xcompare 0 s = -1 then 1 else 0 + 1) = 1 from by split <;> rfl]
    rw [if_neg (by simp)]
    exact waitForSyncLoop_stall_aux rt m s hne n 1 (by omega) (by omega)

/-- Claim C4: the catch-up wait records `syncedDownstream = downstream`
only after observing `compare = 0` on a freshly read master/slave pair
(the pair the decision is made on occurs in the trace at that iteration,
never a stale snapshot); and when the progress deadline (`replTimeout`,
default one minute) elapses with the downstream never strictly advancing,
the loop returns the stalled error without the daemon being stopped — the
process state is untouched apart from the finished wait. -/
theorem C4_wait_for_sync_correct (rt : Nat) (p : ProcState) (d : PInstance) :
    defaultReplTimeoutMs = 60000 ∧ defaultReplTimeoutMs / checkIntervalMs = 60 ∧
    (∀ iters (e prev m s : Nat), waitForSyncLoop rt iters e prev = .caughtUp m s →
      xcompare m s = 0 ∧ (⟨some m, some s⟩ : SyncIter) ∈ iters) ∧
    (p.syncedDownstream = none →
      ∀ iters, (runSyncWait p d rt iters).syncedDownstream = some d →
        ∃ m s, waitForSyncLoop rt iters 0 0 = .caughtUp m s ∧ xcompare m s = 0 ∧
          (⟨some m, some s⟩ : SyncIter) ∈ iters) ∧
    (∀ m s k, xcompare m s ≠ 0 → rt + 2 ≤ k →
      waitForSyncLoop rt (List.replicate k ⟨some m, some s⟩) 0 0 = .stalled ∧
      (runSyncWait p d rt (List.replicate k ⟨some m, some s⟩)).running = p.running ∧
      (runSyncWait p d rt (List.replicate k ⟨some m, some s⟩)).syncedDownstream
        = p.syncedDownstream) := by
  refine ⟨rfl, rfl, fun iters e prev m s h => waitForSyncLoop_caughtUp rt iters e prev m s h,
    fun hnone iters h => ?_, fun m s k hne hk => ?_⟩
  · cases hloop : waitForSyncLoop rt iters 0 0 with
    | caughtUp m s =>
      exact ⟨m, s, rfl, (waitForSyncLoop_caughtUp rt iters 0 0 m s hloop).1,
        (waitForSyncLoop_caughtUp rt iters 0 0 m s hloop).2⟩
    | stalled =>
      rw [runSyncWait, hloop] at h
      simp only at h
      rw [hnone] at h
      cases h
    | canceled =>
      rw [runSyncWait, hloop] at h
      simp only at h
      rw [hnone] at h
      cases h
  · have hst := waitForSyncLoop_stall rt m s k hne hk
    refine ⟨hst, ?_, ?_⟩ <;> rw [runSyncWait, hst]

/-- Witness for C4: a trace catching up on the pair (5,5), and a stalled
62-tick constant trace against the 60-tick default deadline. -/
theorem C4_wait_for_sync_correct_witness :
    (waitForSyncLoop 60 [⟨some 5, some 3⟩, ⟨some 5, some 5⟩] 0 0 = .caughtUp 5 5 ∧
      xcompare 5 5 = 0 ∧
      (⟨some 5, some 5⟩ : SyncIter) ∈ [⟨some 5, some 3⟩, ⟨some 5, some 5⟩]) ∧
    (xcompare 1 2 ≠ 0 ∧
      waitForSyncLoop 60 (List.replicate 62 ⟨some 1, some 2⟩) 0 0 = .stalled ∧
      (runSyncWait ProcState.initial ⟨"b:27017", "m2"⟩ 60
        (List.replicate 62 ⟨some 1, some 2⟩)).running = false) := by
  have hmain := C4_wait_for_sync_correct 60 ProcState.initial ⟨"b:27017", "m2"⟩
  refine ⟨⟨by decide, hmain.2.2.1 [⟨some 5, some 3⟩, ⟨some 5, some 5⟩] 0 0 5 5 (by decide)⟩,
    by decide, (hmain.2.2.2.2 1 2 62 (by decide) (by decide)).1,
    ((hmain.2.2.2.2 1 2 62 (by decide) (by decide)).2.1).trans rfl⟩

/-- Claim C3, counterexample: a supervisor running as sync receives
`Reconfigure(role=primary, downstream=D)`. No daemon start or stop occurs
and a catch-up wait with writes-to-be-enabled is spawned; after the
downstream catches up, `syncedDownstream = D` — but `readWrite` does not
become true: the write-enable step is commented out in the source and the
read-write probe panics while the daemon runs. -/
theorem C3_counterexample :
    Reconfigure ⟨true, some ⟨.roleSync, some ⟨"10.0.0.1:27017", "m1"⟩, none⟩, true,
        none, false⟩
      ⟨true, true, true, false, true, true, []⟩ false
      ⟨.rolePrimary, none, some ⟨"10.0.0.2:27017", "m2"⟩⟩
      = (.ok, ⟨true, some ⟨.rolePrimary, none, some ⟨"10.0.0.2:27017", "m2"⟩⟩, true,
          none, true⟩,
        [.cancelSyncWait, .spawnSyncWait (some ⟨"10.0.0.2:27017", "m2"⟩) true]) ∧
    ¬ PEffect.startDaemon ∈
      [PEffect.cancelSyncWait, PEffect.spawnSyncWait (some ⟨"10.0.0.2:27017", "m2"⟩) true] ∧
    ¬ PEffect.stopDaemon ∈
      [PEffect.cancelSyncWait, PEffect.spawnSyncWait (some ⟨"10.0.0.2:27017", "m2"⟩) true] ∧
    runSyncWait ⟨true, some ⟨.rolePrimary, none, some ⟨"10.0.0.2:27017", "m2"⟩⟩, true,
        none, true⟩ ⟨"10.0.0.2:27017", "m2"⟩ 60 [⟨some 5, some 3⟩, ⟨some 5, some 5⟩]
      = ⟨true, some ⟨.rolePrimary, none, some ⟨"10.0.0.2:27017", "m2"⟩⟩, true,
          some ⟨"10.0.0.2:27017", "m2"⟩, false⟩ ∧
    isReadWrite ⟨true, some ⟨.rolePrimary, none, some ⟨"10.0.0.2:27017", "m2"⟩⟩, true,
        some ⟨"10.0.0.2:27017", "m2"⟩, false⟩ = .panicked ∧
    BoolOrPanic.panicked ≠ .val true := by
  refine ⟨by decide, by decide, by decide, by decide, by decide, by decide⟩

/-- Claim C3, amended: promoting a running sync to primary neither stops
nor starts the daemon; the only effects are cancelling the previous wait
and spawning a catch-up wait against the configured downstream with
writes-to-be-enabled; once the downstream catches up, `syncedDownstream`
equals that downstream; the write-enabling itself is unimplemented in the
source (commented out, with `isReadWrite` panicking on a running daemon),
so `readWrite` never becomes true. -/
theorem C3_promotion_amended (p : ProcState) (w : PWorld) (pc c : PConfig)
    (dI : PInstance) (rt : Nat)
    (hr : p.running = true) (happ : p.configApplied = true)
    (hpc : p.config = some pc) (hrole : pc.role = .roleSync)
    (hc : c.role = .rolePrimary) (hd : c.downstream = some dI) :
    Reconfigure p w false c =
      (.ok, { p with
                config := some c
                configApplied := true
                syncedDownstream := none
                syncWaitActive := true },
        [.cancelSyncWait, .spawnSyncWait (some dI) true]) ∧
    (¬ PEffect.startDaemon ∈ [PEffect.cancelSyncWait, PEffect.spawnSyncWait (some dI) true] ∧
      ¬ PEffect.stopDaemon ∈ [PEffect.cancelSyncWait, PEffect.spawnSyncWait (some dI) true]) ∧
    (∀ iters (m s : Nat), waitForSyncLoop rt iters 0 0 = .caughtUp m s →
      (runSyncWait { p with
          config := some c
          configApplied := true
          syncedDownstream := none
          syncWaitActive := true } dI rt iters).syncedDownstream
        = some dI) ∧
    isReadWrite { p with
        config := some c
        configApplied := true
        syncedDownstream := none
        syncWaitActive := true } = .panicked := by
  have hcpc : ¬ c = pc := by
    intro h
    rw [h, hrole] at hc
    cases hc
  have hval : validateConfig false c = none := by
    simp [validateConfig, hc, hd]
  refine ⟨?_, by simp, fun iters m s hloop => ?_, by simp [isReadWrite, hr]⟩
  · simp [Reconfigure, reconfigure, hval, hr, happ, hpc, PConfig.equal, hcpc, hrole, hc,
      hd, PConfig.isNewDownstream, assumePrimary, pwaitForSync]
  · rw [runSyncWait, hloop]

/-- Witness for the amended C3 at the concrete promotion scenario of the
counterexample. -/
theorem C3_promotion_amended_witness :
    Reconfigure ⟨true, some ⟨.roleSync, some ⟨"10.0.0.1:27017", "m1"⟩, none⟩, true,
        none, false⟩
      ⟨true, true, true, false, true, true, []⟩ false
      ⟨.rolePrimary, none, some ⟨"10.0.0.2:27017", "m2"⟩⟩
      = (.ok, ⟨true, some ⟨.rolePrimary, none, some ⟨"10.0.0.2:27017", "m2"⟩⟩, true,
          none, true⟩,
        [.cancelSyncWait, .spawnSyncWait (some ⟨"10.0.0.2:27017", "m2"⟩) true]) ∧
    isReadWrite ⟨true, some ⟨.rolePrimary, none, some ⟨"10.0.0.2:27017", "m2"⟩⟩, true,
        none, true⟩ = .panicked :=
  ⟨(C3_promotion_amended
      ⟨true, some ⟨.roleSync, some ⟨"10.0.0.1:27017", "m1"⟩, none⟩, true, none, false⟩
      ⟨true, true, true, false, true, true, []⟩
      ⟨.roleSync, some ⟨"10.0.0.1:27017", "m1"⟩, none⟩
      ⟨.rolePrimary, none, some ⟨"10.0.0.2:27017", "m2"⟩⟩
      ⟨"10.0.0.2:27017", "m2"⟩ 60 rfl rfl rfl rfl rfl rfl).1,
   (C3_promotion_amended
      ⟨true, some ⟨.roleSync, some ⟨"10.0.0.1:27017", "m1"⟩, none⟩, true, none, false⟩
      ⟨true, true, true, false, true, true, []⟩
      ⟨.roleSync, some ⟨"10.0.0.1:27017", "m1"⟩, none⟩
      ⟨.rolePrimary, none, some ⟨"10.0.0.2:27017", "m2"⟩⟩
      ⟨"10.0.0.2:27017", "m2"⟩ 60 rfl rfl rfl rfl rfl rfl).2.2.2⟩

/-- Every bind mount the requested-mounts loop holds came either from its
starting list or from a requested mount location. -/
theorem mountLoop_mounted (w : RunWorld) (root : String) :
    ∀ (l : List MountReq) (k : Nat) (ms : List String),
      ∀ x ∈ loopMounted (mountLoop w root l k ms),
        x ∈ ms ∨ x ∈ l.map (fun m => pjoin root m.location) := by
  intro l
  induction l with
  | nil =>
    intro k ms x hx
    exact Or.inl hx
  | cons m rest ih =>
    intro k ms x hx
    rw [mountLoop] at hx
    split at hx
    · exact Or.inl hx
    · split at hx
      · exact Or.inl hx
      · split at hx
        · exact Or.inl hx
        · rcases ih (k + 2) (ms ++ [pjoin root m.location]) x hx with h | h
          · rcases List.mem_append.1 h with h2 | h2
            · exact Or.inl h2
            · refine Or.inr ?_
              rw [List.map_cons]
              rcases List.mem_singleton.1 h2 with rfl
              exact List.mem_cons_self _ _
          · refine Or.inr ?_
            rw [List.map_cons]
            exact List.mem_cons_of_mem _ h

/-- Every bind mount the volumes loop holds came either from its starting
list or from a requested volume target. -/
theorem volumeLoop_mounted (w : RunWorld) (root : String) :
    ∀ (l : List VolumeReq) (k : Nat) (ms : List String),
      ∀ x ∈ loopMounted (volumeLoop w root l k ms),
        x ∈ ms ∨ x ∈ l.map (fun v => pjoin root v.target) := by
  intro l
  induction l with
  | nil =>
    intro k ms x hx
    exact Or.inl hx
  | cons v rest ih =>
    intro k ms x hx
    rw [volumeLoop] at hx
    split at hx
    · exact Or.inl hx
    · split at hx
      · exact Or.inl hx
      · split at hx
        · exact Or.inl hx
        · rcases ih (k + 2) (ms ++ [pjoin root v.target]) x hx with h | h
          · rcases List.mem_append.1 h with h2 | h2
            · exact Or.inl h2
            · refine Or.inr ?_
              rw [List.map_cons]
              rcases List.mem_singleton.1 h2 with rfl
              exact List.mem_cons_self _ _
          · refine Or.inr ?_
            rw [List.map_cons]
            exact List.mem_cons_of_mem _ h

/-- Whether the config-and-domain tail fails or succeeds, it holds
exactly the bind mounts it was given. -/
theorem runStepsTail_mounted (w : RunWorld) (job : Job) (ipOpt : Option Nat) (k2 : Nat)
    (ms4 : List String) (ports : List Port) (env1 : List (String × String)) :
    runStepsMounted (runStepsTail w job ipOpt k2 ms4 ports env1) = ms4 := by
  rw [runStepsTail]
  split
  · rfl
  · split
    · rfl
    · split
      · rfl
      · split
        · rfl
        · split
          · rfl
          · split <;> rfl

/-- Every bind mount held at the end of the post-allocation steps —
whether they failed or succeeded — is one of the paths `unbindMounts`
unmounts. -/
theorem runSteps_mounted (w : RunWorld) (job : Job) (ipOpt : Option Nat) (k0 : Nat) :
    ∀ x ∈ runStepsMounted (runSteps w job ipOpt k0),
      x ∈ unbindPaths w.rootPath job.config := by
  intro x hx
  have hinit : pjoin w.rootPath ".containerinit" ∈ unbindPaths w.rootPath job.config :=
    List.mem_cons_self _ _
  have hresolv : pjoin w.rootPath "etc/resolv.conf" ∈ unbindPaths w.rootPath job.config :=
    List.mem_cons_of_mem _ (List.mem_cons_self _ _)
  have hmnt : ∀ y, y ∈ job.config.mounts.map (fun m => pjoin w.rootPath m.location) →
      y ∈ unbindPaths w.rootPath job.config := by
    intro y hy
    exact List.mem_cons_of_mem _ (List.mem_cons_of_mem _ (List.mem_append_left _ hy))
  have hvol : ∀ y, y ∈ job.config.volumes.map (fun v => pjoin w.rootPath v.target) →
      y ∈ unbindPaths w.rootPath job.config := by
    intro y hy
    exact List.mem_cons_of_mem _ (List.mem_cons_of_mem _ (List.mem_append_right _ hy))
  have hms2 : ∀ y, y ∈ [pjoin w.rootPath ".containerinit",
      pjoin w.rootPath "etc/resolv.conf"] → y ∈ unbindPaths w.rootPath job.config := by
    intro y hy
    rcases List.mem_cons.1 hy with rfl | hy2
    · exact hinit
    · rcases List.mem_singleton.1 hy2 with rfl
      exact hresolv
  rw [runSteps] at hx
  split at hx
  · cases hx
  · split at hx
    · cases hx
    · split at hx
      · cases hx
      · split at hx
        · cases hx
        · split at hx
          · cases hx
          · split at hx
            · rcases List.mem_singleton.1 hx with rfl
              exact hinit
            · split at hx
              · rcases List.mem_singleton.1 hx with rfl
                exact hinit
              · split at hx
                · exact hms2 _ hx
                · split at hx
                  · exact hms2 _ hx
                  · split at hx
                    · rename_i hml
                      have := mountLoop_mounted w w.rootPath job.config.mounts (k0 + 9)
                        [pjoin w.rootPath ".containerinit",
                          pjoin w.rootPath "etc/resolv.conf"] x (by rw [hml]; exact hx)
                      rcases this with h | h
                      · exact hms2 _ h
                      · exact hmnt _ h
                    · rename_i k1 ms3 hml
                      have hms3 : ∀ y, y ∈ ms3 → y ∈ unbindPaths w.rootPath job.config := by
                        intro y hy
                        have := mountLoop_mounted w w.rootPath job.config.mounts (k0 + 9)
                          [pjoin w.rootPath ".containerinit",
                            pjoin w.rootPath "etc/resolv.conf"] y (by rw [hml]; exact hy)
                        rcases this with h | h
                        · exact hms2 _ h
                        · exact hmnt _ h
                      split at hx
                      · rename_i hvl
                        have := volumeLoop_mounted w w.rootPath job.config.volumes k1 ms3 x
                          (by rw [hvl]; exact hx)
                        rcases this with h | h
                        · exact hms3 _ h
                        · exact hvol _ h
                      · rename_i k2 ms4 hvl
                        have hms4 : ∀ y, y ∈ ms4 →
                            y ∈ unbindPaths w.rootPath job.config := by
                          intro y hy
                          have := volumeLoop_mounted w w.rootPath job.config.volumes k1 ms3 y
                            (by rw [hvl]; exact hy)
                          rcases this with h | h
                          · exact hms3 _ h
                          · exact hvol _ h
                        split at hx
                        · exact hms4 _ hx
                        · rw [runStepsTail_mounted] at hx
                          exact hms4 _ hx

/-- Claim C2, counterexample: a bridged-network job whose image pull
fails. `Run` returns the error with `container.cleanup` merely spawned
(`go container.cleanup()`): at the moment `Run` returns, the allocated IP
(7) is still held, not yet released, so the release is not completed "by
the time Run returns". -/
theorem C2_counterexample :
    run ⟨false, ["user"], true, true, 7, "/var/lib/docker/aufs/mnt/web-1", "", "", [], [],
        [], [], 0, some 2⟩
      ⟨"web-1", "", ⟨[], [], [], [], false, false, false, false, "", [], []⟩⟩
      = ⟨.err "error pulling image", some 7, [], true, true, false, [], [], none⟩ ∧
    (some 7 : Option Nat) ≠ none := by
  exact ⟨rfl, by decide⟩

/-- Claim C2, amended: whenever `Run` returns an error while holding an
allocated IP, the error path has spawned `container.cleanup` before
returning, and that cleanup — once the goroutine runs — releases the IP
and unmounts every bind mount created by this `Run`; the release is
asynchronous rather than completed by the time `Run` returns. -/
theorem C2_run_cleanup_amended (w : RunWorld) (job : Job) (msg : String) (ip : Nat)
    (hres : (run w job).result = .err msg) (hip : (run w job).ip = some ip) :
    (run w job).cleanupSpawned = true ∧
    (cleanupApply w.networkConfigured job.config w.rootPath (run w job)).ip = none ∧
    (cleanupApply w.networkConfigured job.config w.rootPath (run w job)).mounted = [] := by
  unfold run at hres hip ⊢
  cases hg : runGate w job with
  | early o =>
    rw [hg] at hip
    dsimp only at hip
    have hnone := (runGate_early w job o hg).1
    rw [hnone] at hip
    cases hip
  | proceed ipOpt k0 =>
    rw [hg] at hres hip
    dsimp only at hres hip ⊢
    cases hs : runSteps w (defaultJob job) ipOpt k0 with
    | ok s =>
      rw [hs] at hres
      dsimp only at hres
      cases hres
    | error e =>
      rcases e with ⟨m2, ms⟩
      rw [hs] at hip
      dsimp only at hip ⊢
      cases hhn : job.config.hostNetwork with
      | true =>
        have hipopt := (runGate_proceed w job ipOpt k0 hg).2 hhn
        rw [hipopt] at hip
        cases hip
      | false =>
        obtain ⟨hipopt, hk0, hnet⟩ := (runGate_proceed w job ipOpt k0 hg).1 hhn
        refine ⟨rfl, by simp [cleanupApply, hhn, hnet], ?_⟩
        simp only [cleanupApply]
        rw [List.filter_eq_nil_iff]
        intro x hx
        have hmem : x ∈ unbindPaths w.rootPath job.config := by
          have h2 := runSteps_mounted w (defaultJob job) ipOpt k0 x
            (by rw [hs]; exact hx)
          rw [defaultJob_config] at h2
          exact h2
        simp [hmem]

/-- Witness for the amended C2 at the counterexample world: the pull
fails, cleanup is spawned, and applying the cleanup releases IP 7 and
leaves no mounts. -/
theorem C2_run_cleanup_amended_witness :
    (run ⟨false, ["user"], true, true, 7, "/var/lib/docker/aufs/mnt/web-1", "", "", [], [],
        [], [], 0, some 2⟩
      ⟨"web-1", "", ⟨[], [], [], [], false, false, false, false, "", [], []⟩⟩).cleanupSpawned
      = true ∧
    (cleanupApply true ⟨[], [], [], [], false, false, false, false, "", [], []⟩
      "/var/lib/docker/aufs/mnt/web-1"
      (run ⟨false, ["user"], true, true, 7, "/var/lib/docker/aufs/mnt/web-1", "", "", [],
          [], [], [], 0, some 2⟩
        ⟨"web-1", "", ⟨[], [], [], [], false, false, false, false, "", [], []⟩⟩)).ip
      = none :=
  ⟨(C2_run_cleanup_amended
      ⟨false, ["user"], true, true, 7, "/var/lib/docker/aufs/mnt/web-1", "", "", [], [],
        [], [], 0, some 2⟩
      ⟨"web-1", "", ⟨[], [], [], [], false, false, false, false, "", [], []⟩⟩
      "error pulling image" 7 rfl rfl).1,
   (C2_run_cleanup_amended
      ⟨false, ["user"], true, true, 7, "/var/lib/docker/aufs/mnt/web-1", "", "", [], [],
        [], [], 0, some 2⟩
      ⟨"web-1", "", ⟨[], [], [], [], false, false, false, false, "", [], []⟩⟩
      "error pulling image" 7 rfl rfl).2.1⟩

/-- One-digit case of `reprDigits`. -/
theorem reprDigits_lt (n : Nat) (h : n < 10) : reprDigits n = [Nat.digitChar n] := by
  rw [reprDigits]
  exact dif_pos h

/-- Multi-digit case of `reprDigits`. -/
theorem reprDigits_ge (n : Nat) (h : ¬ n < 10) :
    reprDigits n = reprDigits (n / 10) ++ [Nat.digitChar (n % 10)] := by
  rw [reprDigits]
  exact dif_neg h

/-- The fuelled core of the standard-library decimal printer computes
`reprDigits`. -/
theorem toDigitsCore_eq_reprDigits :
    ∀ (fuel n : Nat) (ds : List Char), n < fuel →
      Nat.toDigitsCore 10 fuel n ds = reprDigits n ++ ds := by
  intro fuel
  induction fuel with
  | zero =>
    intro n ds h
    omega
  | succ f ih =>
    intro n ds h
    rw [show Nat.toDigitsCore 10 (f + 1) n ds =
        (if n / 10 = 0 then Nat.digitChar (n % 10) :: ds
         else Nat.toDigitsCore 10 f (n / 10) (Nat.digitChar (n % 10) :: ds)) from rfl]
    split
    · rename_i hdiv
      have hlt : n < 10 := by omega
      rw [reprDigits_lt n hlt, Nat.mod_eq_of_lt hlt]
      rfl
    · rename_i hdiv
      have hge : ¬ n < 10 := by omega
      have hfuel : n / 10 < f := by omega
      rw [ih (n / 10) (Nat.digitChar (n % 10) :: ds) hfuel]
      rw [reprDigits_ge n hge, List.append_assoc]
      rfl

/-- `Nat.repr` prints exactly the digit string `reprDigits`. -/
theorem natRepr_eq_reprDigits (n : Nat) : Nat.repr n = (reprDigits n).asString := by
  show (Nat.toDigitsCore 10 (n + 1) n []).asString = (reprDigits n).asString
  rw [toDigitsCore_eq_reprDigits (n + 1) n [] (Nat.lt_succ_self n), List.append_nil]

/-- `Nat.digitChar` is injective below its base. -/
theorem digitChar_inj_fin :
    ∀ a b : Fin 10, Nat.digitChar a.val = Nat.digitChar b.val → a = b := by
  decide

/-- A digit string is never empty. -/
theorem reprDigits_ne_nil (n : Nat) : reprDigits n ≠ [] := by
  rw [reprDigits]
  split
  · simp
  · simp

/-- Digit strings are injective. -/
theorem reprDigits_inj (n : Nat) : ∀ m, reprDigits n = reprDigits m → n = m := by
  induction n using Nat.strong_induction_on with
  | _ n ih =>
    intro m h
    by_cases hn : n < 10 <;> by_cases hm : m < 10
    · rw [reprDigits_lt n hn, reprDigits_lt m hm] at h
      have hc : Nat.digitChar n = Nat.digitChar m := by
        injection h
      have := digitChar_inj_fin ⟨n, hn⟩ ⟨m, hm⟩ hc
      exact congrArg Fin.val this
    · rw [reprDigits_lt n hn, reprDigits_ge m hm] at h
      have hlen := congrArg List.length h
      rw [List.length_append, List.length_singleton, List.length_singleton] at hlen
      have := reprDigits_ne_nil (m / 10)
      have hz : (reprDigits (m / 10)).length ≠ 0 := by
        intro h0
        exact this (List.length_eq_zero.1 h0)
      omega
    · rw [reprDigits_ge n hn, reprDigits_lt m hm] at h
      have hlen := congrArg List.length h
      rw [List.length_append, List.length_singleton, List.length_singleton] at hlen
      have := reprDigits_ne_nil (n / 10)
      have hz : (reprDigits (n / 10)).length ≠ 0 := by
        intro h0
        exact this (List.length_eq_zero.1 h0)
      omega
    · rw [reprDigits_ge n hn, reprDigits_ge m hm] at h
      obtain ⟨hpre, hsuf⟩ := List.append_inj' h rfl
      have hdiv : n / 10 = m / 10 :=
        ih (n / 10) (Nat.div_lt_self (by omega) (by omega)) (m / 10) hpre
      have hcd : Nat.digitChar (n % 10) = Nat.digitChar (m % 10) := by
        injection hsuf
      have hmod : n % 10 = m % 10 := by
        have := digitChar_inj_fin ⟨n % 10, Nat.mod_lt _ (by omega)⟩
          ⟨m % 10, Nat.mod_lt _ (by omega)⟩ hcd
        exact congrArg Fin.val this
      omega

/-- `toString` on naturals is injective. -/
theorem natToString_inj (n m : Nat) (h : toString n = toString m) : n = m := by
  have h2 : Nat.repr n = Nat.repr m := h
  rw [natRepr_eq_reprDigits, natRepr_eq_reprDigits] at h2
  have h3 : reprDigits n = reprDigits m := by
    have := congrArg String.data h2
    simpa [List.asString] using this
  exact reprDigits_inj n m h3

/-- The decimal string of a natural is never empty. -/
theorem natToString_length_pos (n : Nat) : 0 < (toString n).length := by
  have h2 : (toString n).length = (reprDigits n).length := by
    have : toString n = (reprDigits n).asString := natRepr_eq_reprDigits n
    rw [this]
    rfl
  rw [h2]
  cases hlen : (reprDigits n).length with
  | zero => exact absurd (List.length_eq_zero.1 hlen) (reprDigits_ne_nil n)
  | succ k => omega

/-- The `PORT_<i>` env keys are pairwise distinct. -/
theorem portKey_inj (i j : Nat) (h : "PORT_" ++ toString i = "PORT_" ++ toString j) :
    i = j := by
  have hd := congrArg String.data h
  rw [String.data_append, String.data_append] at hd
  have hdata := List.append_cancel_left hd
  have hstr : toString i = toString j := by
    cases hs1 : toString i with
    | mk d1 =>
      cases hs2 : toString j with
      | mk d2 =>
        rw [hs1, hs2] at hdata
        simp only at hdata
        rw [hdata]
  exact natToString_inj i j hstr

/-- No `PORT_<i>` env key collides with the plain `PORT` key. -/
theorem portKey_ne_port (i : Nat) : ("PORT_" ++ toString i) ≠ "PORT" := by
  intro h
  have hlen := congrArg String.length h
  rw [String.length_append] at hlen
  have hpos := natToString_length_pos i
  have h5 : ("PORT_" : String).length = 5 := rfl
  have h4 : ("PORT" : String).length = 4 := rfl
  omega

/-- Looking up the replaced key after a map-replace. -/
theorem lookup_map_replace (k v : String) : ∀ e : List (String × String),
    (e.map (fun p => if p.1 = k then (k, v) else p)).lookup k =
      if (e.lookup k).isSome then some v else none := by
  intro e
  induction e with
  | nil => rfl
  | cons p rest ih =>
    rw [List.map_cons]
    by_cases hp : p.1 = k
    · rw [if_pos hp]
      simp [List.lookup, hp, ih]
    · rw [if_neg hp]
      have hbeq : (k == p.1) = false := by
        simp [Ne.symm hp]
      simp [List.lookup, ih]
      simp only [hbeq]

/-- Map-replace of one key leaves other lookups unchanged. -/
theorem lookup_map_replace_ne (k v k2 : String) (hne : k2 ≠ k) :
    ∀ e : List (String × String),
      (e.map (fun p => if p.1 = k then (k, v) else p)).lookup k2 = e.lookup k2 := by
  intro e
  induction e with
  | nil => rfl
  | cons p rest ih =>
    rw [List.map_cons]
    by_cases hp : p.1 = k
    · rw [if_pos hp]
      have hbeq : (k2 == k) = false := by simp [hne]
      have hbeq2 : (k2 == p.1) = false := by
        rw [hp]
        exact hbeq
      simp [List.lookup, hbeq, hbeq2, ih]
    · rw [if_neg hp]
      simp [List.lookup, ih]

/-- Appending a fresh binding leaves other lookups unchanged. -/
theorem lookup_append_single_ne (k v k2 : String) (hne : k2 ≠ k) :
    ∀ e : List (String × String), (e ++ [(k, v)]).lookup k2 = e.lookup k2 := by
  intro e
  induction e with
  | nil =>
    have hbeq : (k2 == k) = false := by simp [hne]
    simp [List.lookup, hbeq]
  | cons p rest ih =>
    by_cases hp : k2 = p.1
    · simp [List.lookup, hp, ih]
    · have hbeq : (k2 == p.1) = false := by simp [hp]
      simp [List.lookup, hbeq, ih]

/-- Looking up an absent key after appending it finds the new binding. -/
theorem lookup_append_single_self (k v : String) :
    ∀ e : List (String × String), e.lookup k = none →
      (e ++ [(k, v)]).lookup k = some v := by
  intro e
  induction e with
  | nil =>
    intro _
    simp [List.lookup]
  | cons p rest ih =>
    intro h
    by_cases hp : k = p.1
    · rw [List.lookup] at h
      rw [hp] at h
      simp at h
    · have hbeq : (k == p.1) = false := by simp [hp]
      rw [List.lookup] at h
      rw [hbeq] at h
      simp [List.lookup, hbeq, ih h]

/-- `envInsert` makes the inserted binding visible. -/
theorem envInsert_lookup_self (e : List (String × String)) (k v : String) :
    (envInsert e k v).lookup k = some v := by
  rw [envInsert]
  split
  · rename_i hsome
    rw [lookup_map_replace]
    rw [if_pos hsome]
  · rename_i hnone
    refine lookup_append_single_self k v e ?_
    cases h : e.lookup k with
    | none => rfl
    | some x =>
      rw [h] at hnone
      simp at hnone

/-- `envInsert` leaves every other key unchanged. -/
theorem envInsert_lookup_ne (e : List (String × String)) (k v k2 : String)
    (hne : k2 ≠ k) : (envInsert e k v).lookup k2 = e.lookup k2 := by
  rw [envInsert]
  split
  · exact lookup_map_replace_ne k v k2 hne e
  · exact lookup_append_single_ne k v k2 hne e

/-- A port with a proto other than tcp/udp anywhere in the list makes the
port-assignment loop fail. -/
theorem assignPortsLoop_bad :
    ∀ (ports : List Port) (i : Nat) (env : List (String × String)),
      (∃ p ∈ ports, p.proto ≠ "tcp" ∧ p.proto ≠ "udp") →
      ∃ msg, assignPortsLoop ports i env = .error msg := by
  intro ports
  induction ports with
  | nil =>
    intro i env h
    obtain ⟨p, hp, _⟩ := h
    cases hp
  | cons p rest ih =>
    intro i env h
    by_cases hbad : (p.proto != "tcp" && p.proto != "udp") = true
    · refine ⟨"unknown port proto " ++ p.proto, ?_⟩
      rw [assignPortsLoop]
      rw [if_pos hbad]
    · obtain ⟨q, hq, hq2⟩ := h
      rcases List.mem_cons.1 hq with rfl | hq3
      · exfalso
        apply hbad
        simp [hq2.1, hq2.2]
      · obtain ⟨msg, hmsg⟩ := ih (i + 1)
          (envInsert (if i = 0 then envInsert env "PORT"
              (toString (if p.port = 0 then 5000 + i else p.port)) else env)
            ("PORT_" ++ toString i) (toString (if p.port = 0 then 5000 + i else p.port)))
          ⟨q, hq3, hq2⟩
        refine ⟨msg, ?_⟩
        rw [assignPortsLoop]
        rw [if_neg hbad]
        simp only [hmsg]

/-- Port assignment on an all-good list starting past index zero: the
returned ports are the defaulted ones, every `PORT_<i+j>` key reads back
the assigned port, and every other key is untouched. -/
theorem assignPortsLoop_ok_aux :
    ∀ (ports : List Port) (i : Nat) (env : List (String × String)),
      (∀ p ∈ ports, p.proto = "tcp" ∨ p.proto = "udp") → 1 ≤ i →
      ∃ (ports2 : List Port) (env2 : List (String × String)),
        assignPortsLoop ports i env = .ok (ports2, env2) ∧
        ports2.length = ports.length ∧
        (∀ (j : Nat) (p : Port), ports[j]? = some p →
          ports2[j]? = some (⟨p.proto, if p.port = 0 then 5000 + (i + j) else p.port⟩ : Port)) ∧
        (∀ (j : Nat) (p2 : Port), ports2[j]? = some p2 →
          env2.lookup ("PORT_" ++ toString (i + j)) = some (toString p2.port)) ∧
        (∀ k2, (∀ j, j < ports.length → k2 ≠ "PORT_" ++ toString (i + j)) →
          env2.lookup k2 = env.lookup k2) := by
  intro ports
  induction ports with
  | nil =>
    intro i env _ _
    refine ⟨[], env, rfl, rfl, ?_, ?_, fun k2 _ => rfl⟩
    · intro j p h
      simp at h
    · intro j p2 h
      simp at h
  | cons p rest ih =>
    intro i env hgood hi
    have hp := hgood p (List.mem_cons_self _ _)
    have hproto : (p.proto != "tcp" && p.proto != "udp") = false := by
      rcases hp with h | h <;> simp [h]
    have hi0 : ¬ i = 0 := by omega
    obtain ⟨ps, envR, heq, hlen, hspec, hkeys, hpres⟩ :=
      ih (i + 1)
        (envInsert env ("PORT_" ++ toString i)
          (toString (if p.port = 0 then 5000 + i else p.port)))
        (fun q hq => hgood q (List.mem_cons_of_mem _ hq)) (by omega)
    refine ⟨⟨p.proto, if p.port = 0 then 5000 + i else p.port⟩ :: ps, envR, ?_, ?_, ?_,
      ?_, ?_⟩
    · rw [assignPortsLoop]
      rw [if_neg (by simp [hproto])]
      simp only [hi0, if_false, heq]
    · simp [hlen]
    · intro j q hj
      cases j with
      | zero =>
        rw [List.getElem?_cons_zero] at hj
        cases hj
        rw [List.getElem?_cons_zero]
        rfl
      | succ j2 =>
        rw [List.getElem?_cons_succ] at hj
        rw [List.getElem?_cons_succ]
        rw [show i + (j2 + 1) = i + 1 + j2 from by omega]
        exact hspec j2 q hj
    · intro j p2 hj
      cases j with
      | zero =>
        rw [List.getElem?_cons_zero] at hj
        cases hj
        have havoid : ∀ j2, j2 < rest.length →
            ("PORT_" ++ toString i) ≠ "PORT_" ++ toString (i + 1 + j2) := by
          intro j2 _ hcontra
          have := portKey_inj i (i + 1 + j2) hcontra
          omega
        rw [show i + 0 = i from rfl]
        rw [hpres ("PORT_" ++ toString i) havoid]
        exact envInsert_lookup_self _ _ _
      | succ j2 =>
        rw [List.getElem?_cons_succ] at hj
        rw [show i + (j2 + 1) = i + 1 + j2 from by omega]
        exact hkeys j2 p2 hj
    · intro k2 hk2
      have havoid : ∀ j2, j2 < rest.length →
          k2 ≠ "PORT_" ++ toString (i + 1 + j2) := by
        intro j2 hj2
        rw [show i + 1 + j2 = i + (j2 + 1) from by omega]
        exact hk2 (j2 + 1) (by simpa using Nat.succ_lt_succ hj2)
      rw [hpres k2 havoid]
      exact envInsert_lookup_ne _ _ _ _ (hk2 0 (by simp))

/-- Port assignment from index zero on an all-good list: ports are
defaulted by `5000 + index`, `PORT` reads back the first port, and every
`PORT_<j>` reads back port `j`. -/
theorem assignPortsLoop_ok (ports : List Port) (env : List (String × String))
    (hgood : ∀ p ∈ ports, p.proto = "tcp" ∨ p.proto = "udp") :
    ∃ (ports2 : List Port) (env2 : List (String × String)),
      assignPortsLoop ports 0 env = .ok (ports2, env2) ∧
      ports2.length = ports.length ∧
      (∀ (j : Nat) (p : Port), ports[j]? = some p →
        ports2[j]? = some (⟨p.proto, if p.port = 0 then 5000 + j else p.port⟩ : Port)) ∧
      (∀ (j : Nat) (p2 : Port), ports2[j]? = some p2 →
        env2.lookup ("PORT_" ++ toString j) = some (toString p2.port)) ∧
      (∀ (p0 : Port), ports2[0]? = some p0 →
        env2.lookup "PORT" = some (toString p0.port)) := by
  cases ports with
  | nil =>
    refine ⟨[], env, rfl, rfl, ?_, ?_, ?_⟩
    · intro j p h
      simp at h
    · intro j p h
      simp at h
    · intro p0 h
      simp at h
  | cons p rest =>
    have hp := hgood p (List.mem_cons_self _ _)
    have hproto : (p.proto != "tcp" && p.proto != "udp") = false := by
      rcases hp with h | h <;> simp [h]
    obtain ⟨ps, envR, heq, hlen, hspec, hkeys, hpres⟩ :=
      assignPortsLoop_ok_aux rest 1
        (envInsert (envInsert env "PORT" (toString (if p.port = 0 then 5000 else p.port)))
          ("PORT_" ++ toString 0) (toString (if p.port = 0 then 5000 else p.port)))
        (fun q hq => hgood q (List.mem_cons_of_mem _ hq)) (by omega)
    refine ⟨⟨p.proto, if p.port = 0 then 5000 else p.port⟩ :: ps, envR, ?_, ?_, ?_, ?_, ?_⟩
    · rw [assignPortsLoop]
      rw [if_neg (by simp [hproto])]
      simp [heq]
    · simp [hlen]
    · intro j q hj
      cases j with
      | zero =>
        rw [List.getElem?_cons_zero] at hj
        cases hj
        rw [List.getElem?_cons_zero]
      | succ j2 =>
        rw [List.getElem?_cons_succ] at hj
        rw [List.getElem?_cons_succ]
        have := hspec j2 q hj
        rw [show (5000 : Nat) + (j2 + 1) = 5000 + (1 + j2) from by omega]
        exact this
    · intro j p2 hj
      cases j with
      | zero =>
        rw [List.getElem?_cons_zero] at hj
        cases hj
        have havoid : ∀ j2, j2 < rest.length →
            ("PORT_" ++ toString 0) ≠ "PORT_" ++ toString (1 + j2) := by
          intro j2 _ hcontra
          have := portKey_inj 0 (1 + j2) hcontra
          omega
        rw [hpres ("PORT_" ++ toString 0) havoid]
        exact envInsert_lookup_self _ _ _
      | succ j2 =>
        rw [List.getElem?_cons_succ] at hj
        have := hkeys j2 p2 hj
        simpa [Nat.add_comm 1 j2] using this
    · intro p0 h0
      rw [List.getElem?_cons_zero] at h0
      cases h0
      have havoid : ∀ j2, j2 < rest.length → "PORT" ≠ "PORT_" ++ toString (1 + j2) := by
        intro j2 _
        exact (portKey_ne_port (1 + j2)).symm
      rw [hpres "PORT" havoid]
      rw [envInsert_lookup_ne _ _ _ _ (portKey_ne_port 0).symm]
      exact envInsert_lookup_self _ _ _

/-- Claim C8: a requested port with a proto other than tcp or udp makes
the port loop (and hence `Run`) fail; otherwise every zero port at index
`i` becomes `5000 + i`, the job env gains `PORT` (the first port) and
`PORT_<i>` for every index; concretely, a job with
`ports = [(tcp,0),(udp,0)]` ends with `PORT=5000`, `PORT_0=5000`,
`PORT_1=5001`, and both assigned ports and those env entries appear in the
written init config. -/
theorem C8_port_defaulting :
    (∀ (ports : List Port) (i : Nat) (env : List (String × String)),
      (∃ p ∈ ports, p.proto ≠ "tcp" ∧ p.proto ≠ "udp") →
      ∃ msg, assignPortsLoop ports i env = .error msg) ∧
    (∀ (ports : List Port) (env : List (String × String)),
      (∀ p ∈ ports, p.proto = "tcp" ∨ p.proto = "udp") →
      ∃ (ports2 : List Port) (env2 : List (String × String)),
        assignPortsLoop ports 0 env = .ok (ports2, env2) ∧
        (∀ (j : Nat) (p : Port), ports[j]? = some p →
          ports2[j]? = some (⟨p.proto, if p.port = 0 then 5000 + j else p.port⟩ : Port)) ∧
        (∀ (j : Nat) (p2 : Port), ports2[j]? = some p2 →
          env2.lookup ("PORT_" ++ toString j) = some (toString p2.port)) ∧
        (∀ (p0 : Port), ports2[0]? = some p0 →
          env2.lookup "PORT" = some (toString p0.port))) ∧
    ((run ⟨false, ["user"], true, true, 7, "/r", "", "", [], ["start"], [], [], 1, none⟩
        ⟨"web-1", "", ⟨[], [⟨"tcp", 0⟩, ⟨"udp", 0⟩], [], [], false, false, false, false,
          "", [], []⟩⟩).result = .ok ∧
      (run ⟨false, ["user"], true, true, 7, "/r", "", "", [], ["start"], [], [], 1, none⟩
        ⟨"web-1", "", ⟨[], [⟨"tcp", 0⟩, ⟨"udp", 0⟩], [], [], false, false, false, false,
          "", [], []⟩⟩).jobEnv.lookup "PORT" = some "5000" ∧
      (run ⟨false, ["user"], true, true, 7, "/r", "", "", [], ["start"], [], [], 1, none⟩
        ⟨"web-1", "", ⟨[], [⟨"tcp", 0⟩, ⟨"udp", 0⟩], [], [], false, false, false, false,
          "", [], []⟩⟩).jobEnv.lookup "PORT_0" = some "5000" ∧
      (run ⟨false, ["user"], true, true, 7, "/r", "", "", [], ["start"], [], [], 1, none⟩
        ⟨"web-1", "", ⟨[], [⟨"tcp", 0⟩, ⟨"udp", 0⟩], [], [], false, false, false, false,
          "", [], []⟩⟩).jobEnv.lookup "PORT_1" = some "5001" ∧
      (run ⟨false, ["user"], true, true, 7, "/r", "", "", [], ["start"], [], [], 1, none⟩
        ⟨"web-1", "", ⟨[], [⟨"tcp", 0⟩, ⟨"udp", 0⟩], [], [], false, false, false, false,
          "", [], []⟩⟩).jobPorts = [⟨"tcp", 5000⟩, ⟨"udp", 5001⟩] ∧
      ((run ⟨false, ["user"], true, true, 7, "/r", "", "", [], ["start"], [], [], 1, none⟩
        ⟨"web-1", "", ⟨[], [⟨"tcp", 0⟩, ⟨"udp", 0⟩], [], [], false, false, false, false,
          "", [], []⟩⟩).written.map InitConfigM.ports)
        = some [⟨"tcp", 5000⟩, ⟨"udp", 5001⟩] ∧
      ((run ⟨false, ["user"], true, true, 7, "/r", "", "", [], ["start"], [], [], 1, none⟩
        ⟨"web-1", "", ⟨[], [⟨"tcp", 0⟩, ⟨"udp", 0⟩], [], [], false, false, false, false,
          "", [], []⟩⟩).written.map (fun c => c.env.lookup "PORT")) = some (some "5000") ∧
      ((run ⟨false, ["user"], true, true, 7, "/r", "", "", [], ["start"], [], [], 1, none⟩
        ⟨"web-1", "", ⟨[], [⟨"tcp", 0⟩, ⟨"udp", 0⟩], [], [], false, false, false, false,
          "", [], []⟩⟩).written.map (fun c => c.env.lookup "PORT_0")) = some (some "5000") ∧
      ((run ⟨false, ["user"], true, true, 7, "/r", "", "", [], ["start"], [], [], 1, none⟩
        ⟨"web-1", "", ⟨[], [⟨"tcp", 0⟩, ⟨"udp", 0⟩], [], [], false, false, false, false,
          "", [], []⟩⟩).written.map (fun c => c.env.lookup "PORT_1"))
        = some (some "5001")) := by
  refine ⟨assignPortsLoop_bad, ?_, ?_⟩
  · intro ports env hgood
    obtain ⟨ports2, env2, heq, _, hspec, hkeys, hport⟩ := assignPortsLoop_ok ports env hgood
    exact ⟨ports2, env2, heq, hspec, hkeys, hport⟩
  · refine ⟨rfl, ?_, ?_, ?_, rfl, rfl, ?_, ?_, ?_⟩ <;> rfl

/-- Witness for C8: a rejected icmp port, and the two-port defaulting
scenario. -/
theorem C8_port_defaulting_witness :
    (∃ msg, assignPortsLoop [⟨"icmp", 0⟩] 0 [] = .error msg) ∧
    (∃ (ports2 : List Port) (env2 : List (String × String)),
      assignPortsLoop [⟨"tcp", 0⟩, ⟨"udp", 0⟩] 0 [] = .ok (ports2, env2) ∧
      (∀ (j : Nat) (p : Port), [(⟨"tcp", 0⟩ : Port), ⟨"udp", 0⟩][j]? = some p →
        ports2[j]? = some (⟨p.proto, if p.port = 0 then 5000 + j else p.port⟩ : Port)) ∧
      (∀ (j : Nat) (p2 : Port), ports2[j]? = some p2 →
        env2.lookup ("PORT_" ++ toString j) = some (toString p2.port)) ∧
      (∀ (p0 : Port), ports2[0]? = some p0 →
        env2.lookup "PORT" = some (toString p0.port))) :=
  ⟨C8_port_defaulting.1 [⟨"icmp", 0⟩] 0 []
      ⟨⟨"icmp", 0⟩, by decide, by decide, by decide⟩,
   C8_port_defaulting.2.1 [⟨"tcp", 0⟩, ⟨"udp", 0⟩] [] (by decide)⟩

end Flynn
